import Mathlib

/-!
Tunnel engine of `lib/tunnel.c`

A shallow embedding of the relay engine (`break_now`, `is_sending`,
`h2o_tunnel_break`, `reset_timeout`, `on_timeout`, `h2o_tunnel_establish`,
`h2o_tunnel_send`, `h2o_tunnel_notify_sent`) and of the socket end
(`on_socket_read`, `on_socket_write_complete`, `socket_end_*`).

The C code mutates one `h2o_tunnel_t` and calls out to the timer queue, to the
socket layer and to the four function pointers of each end.  Here

* the tunnel is a record, and `World` adds the sockets, a mark set by
  `free(tunnel)` and the trace of every call that leaves the file;
* the flags `shutdowned` and `sending` are numbers, compared and tested as the
  C code does (`== 1`, non-zero);
* a function pointer is one of the functions of this file, `NULL` where the
  code tests for it, or `foreign`: a function defined elsewhere, which is
  recorded in the trace and returns without entering the engine (what it does
  later arrives as a separate entry);
* `assert` failing is the only fault, returned as `Except.error`.
-/

namespace H2OTunnel

/-! ## Data model -/

/-- Identity of an end inside the tunnel: `&tunnel->down` or `&tunnel->up`. -/
inductive EndId where
  | down
  | up
  deriving DecidableEq, Repr

/-- One `h2o_iovec_t`: the bytes from `base` up to `base + len`. -/
abbrev Iovec := List Nat

/-- Value of the `open` function pointer of an end. `foreign` is a function
defined outside `tunnel.c`; it returns without calling back into the engine. -/
inductive OpenFn where
  | null
  | socket_end_open
  | foreign
  deriving DecidableEq, Repr

/-- Value of the `send` function pointer of an end. -/
inductive SendFn where
  | socket_end_send
  | foreign
  deriving DecidableEq, Repr

/-- Value of the `on_peer_send_complete` function pointer of an end. -/
inductive PeerSendCompleteFn where
  | null
  | socket_end_on_peer_send_complete
  | foreign
  deriving DecidableEq, Repr

/-- Value of the `close` function pointer of an end. -/
inductive CloseFn where
  | socket_end_close
  | foreign
  deriving DecidableEq, Repr

/-- The record `h2o_tunnel_end_t`: four function pointers, the adapter's handle
`data` (for a socket end, the socket) and the two flags owned by the engine. -/
structure End where
  open_ : OpenFn
  send : SendFn
  on_peer_send_complete : PeerSendCompleteFn
  close : CloseFn
  data : Nat
  shutdowned : Nat
  sending : Nat
  deriving DecidableEq, Repr

/-- The record `h2o_tunnel_t`. `timeout_entry` is the number of live
registrations of the timeout entry with the timer queue. -/
structure Tunnel where
  timeout_entry : Nat
  down : End
  up : End
  err : Option String
  deriving DecidableEq, Repr

/-- The part of `h2o_socket_t` that the socket end reads or writes: the back
pointer `data` (true once it points to the tunnel), the input buffer,
`bytes_read` of the last read, and whether a read callback is registered. -/
structure Socket where
  data : Bool
  input : List Nat
  bytes_read : Nat
  reading : Bool
  deriving DecidableEq, Repr

/-- A call that leaves `tunnel.c`: timer queue, function pointers of an end,
`free`, socket layer. -/
inductive Event where
  | timeout_unlink
  | timeout_link
  | open_ (e : EndId)
  | send (e : EndId) (bufs : List Iovec) (bufcnt : Nat) (is_final : Int)
  | on_peer_send_complete (e : EndId) (peer : EndId)
  | close (e : EndId) (err : Option String)
  | free
  | socket_read_start (sock : Nat)
  | socket_read_stop (sock : Nat)
  | socket_write (sock : Nat) (bufs : List Iovec) (bufcnt : Nat)
  | socket_shutdown (sock : Nat)
  | socket_close (sock : Nat)
  | buffer_consume (sock : Nat) (delta : Nat)
  deriving DecidableEq, Repr

/-- Why a call aborts: the `assert` of `h2o_tunnel_notify_sent`. -/
inductive Fault where
  | assertion_failed
  deriving DecidableEq, Repr

/-- The tunnel, the sockets by handle, whether `free(tunnel)` has run, and the
calls made so far, oldest first. -/
structure World where
  tunnel : Tunnel
  freed : Bool
  socks : Nat → Socket
  trace : List Event

/-- The end `&tunnel->down` or `&tunnel->up`. -/
def World.getEnd (w : World) (e : EndId) : End :=
  match e with
  | .down => w.tunnel.down
  | .up => w.tunnel.up

/-- Store into `tunnel->down` or `tunnel->up`. -/
def World.setEnd (w : World) (e : EndId) (x : End) : World :=
  match e with
  | .down => { w with tunnel := { w.tunnel with down := x } }
  | .up => { w with tunnel := { w.tunnel with up := x } }

/-- Append one call to the trace. -/
def World.log (w : World) (ev : Event) : World :=
  { w with trace := w.trace ++ [ev] }

/-- Store into the socket with handle `sock`. -/
def World.setSock (w : World) (sock : Nat) (s : Socket) : World :=
  { w with socks := fun k => if k = sock then s else w.socks k }

/-- The other end: `x == &tunnel->down ? &tunnel->up : &tunnel->down`. -/
def other (x : EndId) : EndId :=
  if x = .down then .up else .down

/-! ## Timer queue and socket layer -/

/-- The function `h2o_timeout_unlink`: drops the registration of the entry, if any. -/
def h2o_timeout_unlink (w : World) : World :=
  ({ w with tunnel := { w.tunnel with timeout_entry := 0 } }).log .timeout_unlink

/-- The function `h2o_timeout_link`: registers the entry with the timer queue. -/
def h2o_timeout_link (w : World) : World :=
  ({ w with tunnel := { w.tunnel with timeout_entry := w.tunnel.timeout_entry + 1 } }).log
    .timeout_link

/-- The call `h2o_socket_read_start(sock, on_socket_read)`. -/
def h2o_socket_read_start (w : World) (sock : Nat) : World :=
  (w.setSock sock { w.socks sock with reading := true }).log (.socket_read_start sock)

/-- The call `h2o_socket_read_stop(sock)`. -/
def h2o_socket_read_stop (w : World) (sock : Nat) : World :=
  (w.setSock sock { w.socks sock with reading := false }).log (.socket_read_stop sock)

/-- The call `h2o_socket_write(sock, bufs, bufcnt, on_socket_write_complete)`. -/
def h2o_socket_write (w : World) (sock : Nat) (bufs : List Iovec) (bufcnt : Nat) : World :=
  w.log (.socket_write sock bufs bufcnt)

/-- The call `h2o_socket_shutdown(sock)`. -/
def h2o_socket_shutdown (w : World) (sock : Nat) : World :=
  w.log (.socket_shutdown sock)

/-- The call `h2o_socket_close(sock)`. -/
def h2o_socket_close (w : World) (sock : Nat) : World :=
  w.log (.socket_close sock)

/-- The call `h2o_buffer_consume(&sock->input, delta)`. -/
def h2o_buffer_consume (w : World) (sock : Nat) (delta : Nat) : World :=
  (w.setSock sock { w.socks sock with input := (w.socks sock).input.drop delta }).log
    (.buffer_consume sock delta)

/-- Modelled from the spec: the constant `h2o_socket_error_closed` is declared
outside `tunnel.c`; it is the reason a transport reports on a clean
end-of-stream, which the spec calls "graceful peer close". -/
def h2o_socket_error_closed : String := "graceful peer close"

/-! ## Teardown and break (lines 27-62) -/

/-- The function `socket_end_close`. -/
def socket_end_close (w : World) (e : EndId) (_err : Option String) : World :=
  let sock := (w.getEnd e).data
  h2o_socket_close w sock

/-- The call `end->close(tunnel, end, err)` through the function pointer. -/
def invoke_close (w : World) (e : EndId) (err : Option String) : World :=
  let w := w.log (.close e err)
  match (w.getEnd e).close with
  | .socket_end_close => socket_end_close w e err
  | .foreign => w

/-- The function `break_now`. -/
def break_now (w : World) : World :=
  let w := h2o_timeout_unlink w
  let w := invoke_close w .down w.tunnel.err
  let w := invoke_close w .up w.tunnel.err
  ({ w with freed := true }).log .free

/-- The function `is_sending`. -/
def is_sending (w : World) : Bool :=
  w.tunnel.down.sending == 1 || w.tunnel.up.sending == 1

/-- The function `h2o_tunnel_break`. -/
def h2o_tunnel_break (w : World) (err : Option String) : World :=
  let w := { w with tunnel := { w.tunnel with err := err } }
  let w := w.setEnd .down { w.tunnel.down with shutdowned := 1 }
  let w := w.setEnd .up { w.tunnel.up with shutdowned := 1 }
  if !is_sending w then
    break_now w
  else
    w

/-- The function `reset_timeout`. -/
def reset_timeout (w : World) : World :=
  let w := h2o_timeout_unlink w
  h2o_timeout_link w

/-- The function `on_timeout`. -/
def on_timeout (w : World) : World :=
  h2o_tunnel_break w (some "tunnel timeout")

/-! ## Completion and forwarding (lines 88-109) -/

/-- The function `socket_end_on_peer_send_complete`. -/
def socket_end_on_peer_send_complete (w : World) (e : EndId) (_peer : EndId) : World :=
  let sock := (w.getEnd e).data
  let w := h2o_buffer_consume w sock (w.socks sock).input.length
  h2o_socket_read_start w sock

/-- The call `peer->on_peer_send_complete(tunnel, peer, end)` through the
function pointer (the caller has checked it is not `NULL`). -/
def invoke_on_peer_send_complete (w : World) (e : EndId) (peer : EndId) : World :=
  let w := w.log (.on_peer_send_complete e peer)
  match (w.getEnd e).on_peer_send_complete with
  | .socket_end_on_peer_send_complete => socket_end_on_peer_send_complete w e peer
  | _ => w

/-- The function `h2o_tunnel_notify_sent`. -/
def h2o_tunnel_notify_sent (w : World) (e : EndId) : Except Fault World :=
  if (w.getEnd e).sending ≠ 1 then
    .error .assertion_failed
  else
    let w := reset_timeout w
    let w := w.setEnd e { w.getEnd e with sending := 0 }
    let peer := other e
    let w :=
      if (w.getEnd peer).on_peer_send_complete ≠ .null then
        invoke_on_peer_send_complete w peer e
      else
        w
    if !is_sending w && w.tunnel.down.shutdowned ≠ 0 && w.tunnel.up.shutdowned ≠ 0 then
      .ok (break_now w)
    else
      .ok w

/-- The function `socket_end_send`. -/
def socket_end_send (w : World) (e : EndId) (bufs : List Iovec) (bufcnt : Nat)
    (is_final : Int) : Except Fault World :=
  let sock := (w.getEnd e).data
  let w := if bufcnt ≠ 0 then h2o_socket_write w sock bufs bufcnt else w
  let w := if is_final ≠ 0 then h2o_socket_shutdown w sock else w
  if bufcnt = 0 then
    h2o_tunnel_notify_sent w e
  else
    .ok w

/-- The call `to->send(tunnel, to, bufs, bufcnt, is_final)` through the
function pointer. -/
def invoke_send (w : World) (e : EndId) (bufs : List Iovec) (bufcnt : Nat)
    (is_final : Int) : Except Fault World :=
  let w := w.log (.send e bufs bufcnt is_final)
  match (w.getEnd e).send with
  | .socket_end_send => socket_end_send w e bufs bufcnt is_final
  | .foreign => .ok w

/-- The function `h2o_tunnel_send`. -/
def h2o_tunnel_send (w : World) (from_ : EndId) (bufs : List Iovec) (bufcnt : Nat)
    (is_final : Int) : Except Fault World :=
  let w := reset_timeout w
  let to_ := other from_
  let w := if is_final ≠ 0 then w.setEnd from_ { w.getEnd from_ with shutdowned := 1 } else w
  let w := w.setEnd to_ { w.getEnd to_ with sending := 1 }
  invoke_send w to_ bufs bufcnt is_final

/-! ## Socket end (lines 113-187) -/

/-- The function `on_socket_read`. The tunnel is `sock->data`. -/
def on_socket_read (w : World) (sock : Nat) (err : Option String) : Except Fault World :=
  let e := if w.tunnel.down.data = sock then EndId.down else EndId.up
  match err with
  | some reason =>
    let w := h2o_socket_read_stop w sock
    if reason = h2o_socket_error_closed then
      h2o_tunnel_send w e [] 0 1
    else
      .ok (h2o_tunnel_break w (some reason))
  | none =>
    if (w.socks sock).bytes_read = 0 then
      .ok w
    else
      let w := h2o_socket_read_stop w sock
      let buf : Iovec := (w.socks sock).input
      h2o_tunnel_send w e [buf] 1 0

/-- The function `on_socket_write_complete`. -/
def on_socket_write_complete (w : World) (sock : Nat) (err : Option String) :
    Except Fault World :=
  match err with
  | some reason => .ok (h2o_tunnel_break w (some reason))
  | none =>
    let e := if w.tunnel.down.data = sock then EndId.down else EndId.up
    h2o_tunnel_notify_sent w e

/-- The function `socket_end_open`. -/
def socket_end_open (w : World) (e : EndId) : Except Fault World :=
  let sock := (w.getEnd e).data
  let w := w.setSock sock { w.socks sock with data := true }
  (if (w.socks sock).input.length ≠ 0 then on_socket_read w sock none else .ok w) >>= fun w =>
  .ok (h2o_socket_read_start w sock)

/-- The call `end->open(tunnel, end)` through the function pointer (the caller
has checked it is not `NULL`). -/
def invoke_open (w : World) (e : EndId) : Except Fault World :=
  let w := w.log (.open_ e)
  match (w.getEnd e).open_ with
  | .socket_end_open => socket_end_open w e
  | _ => .ok w

/-- The function `h2o_tunnel_socket_end_init`. -/
def h2o_tunnel_socket_end_init (sock : Nat) : End :=
  { open_ := .socket_end_open, send := .socket_end_send,
    on_peer_send_complete := .socket_end_on_peer_send_complete,
    close := .socket_end_close, data := sock, shutdowned := 0, sending := 0 }

/-- The function `h2o_tunnel_establish`, given the two end records and the sockets that
exist when it is called. -/
def h2o_tunnel_establish (down up : End) (socks : Nat → Socket) : Except Fault World :=
  let w : World :=
    { tunnel := { timeout_entry := 0, down := down, up := up, err := none },
      freed := false, socks := socks, trace := [] }
  let w := h2o_timeout_link w
  let w := w.setEnd .down { w.tunnel.down with shutdowned := 0 }
  let w := w.setEnd .down { w.tunnel.down with sending := 0 }
  let w := w.setEnd .up { w.tunnel.up with shutdowned := 0 }
  let w := w.setEnd .up { w.tunnel.up with sending := 0 }
  (if w.tunnel.up.open_ ≠ .null then invoke_open w .up else .ok w) >>= fun w =>
  (if w.tunnel.down.open_ ≠ .null then invoke_open w .down else .ok w) >>= fun w =>
  .ok w

/-! ## Event sequences -/

/-- An entry into the engine from outside: a forward, a completion, a break,
or the timer firing. -/
inductive Op where
  | send (from_ : EndId) (bufs : List Iovec) (bufcnt : Nat) (is_final : Int)
  | notify_sent (e : EndId)
  | break_ (err : Option String)
  | timer
  deriving DecidableEq, Repr

/-- One entry into the engine. -/
def step (w : World) (op : Op) : Except Fault World :=
  match op with
  | .send from_ bufs bufcnt is_final => h2o_tunnel_send w from_ bufs bufcnt is_final
  | .notify_sent e => h2o_tunnel_notify_sent w e
  | .break_ err => .ok (h2o_tunnel_break w err)
  | .timer => .ok (on_timeout w)

/-- A sequence of entries applied to a tunnel. The tunnel no longer exists once
`free` has run, and a failed assertion aborts the program: in both cases the
rest of the sequence is not delivered. -/
def run (w : World) (ops : List Op) : World :=
  match ops with
  | [] => w
  | op :: rest =>
    if w.freed then w
    else
      match step w op with
      | .ok w1 => run w1 rest
      | .error _ => w

/-! ## Observations on a trace -/

/-- Is the call a `close` of some end? -/
def Event.isClose : Event → Bool
  | .close _ _ => true
  | _ => false

/-- Is the call a `send` of some end? -/
def Event.isSend : Event → Bool
  | .send _ _ _ _ => true
  | _ => false

/-- Is the call an `on_peer_send_complete` of some end? -/
def Event.isPeerSendComplete : Event → Bool
  | .on_peer_send_complete _ _ => true
  | _ => false

/-- Both flags of both ends are 0 or 1. -/
def flagsOK (w : World) : Prop :=
  w.tunnel.down.shutdowned ≤ 1 ∧ w.tunnel.down.sending ≤ 1 ∧
  w.tunnel.up.shutdowned ≤ 1 ∧ w.tunnel.up.sending ≤ 1

instance (w : World) : Decidable (flagsOK w) :=
  inferInstanceAs (Decidable (_ ∧ _ ∧ _ ∧ _))

/-- Is the call one into the socket layer? -/
def Event.isSocketCall : Event → Bool
  | .socket_read_start _ => true
  | .socket_read_stop _ => true
  | .socket_write _ _ _ => true
  | .socket_shutdown _ => true
  | .socket_close _ => true
  | .buffer_consume _ _ => true
  | _ => false

/-- The calls made by the engine itself, oldest first: timer queue, function
pointers of the two ends, `free`. Calls made inside the socket end are left
out. -/
def World.calls (w : World) : List Event :=
  w.trace.filter (fun ev => !ev.isSocketCall)

/-- The calls `break_now` makes on a tunnel whose error slot holds `err`. -/
def teardown_calls (err : Option String) : List Event :=
  [.timeout_unlink, .close .down err, .close .up err, .free]

/-- The relation between the world before and after an `open`: only `sending`
flags may have been raised and only the timer and a `send` may have been
called. -/
def opened (w w1 : World) : Prop :=
  w1.freed = w.freed ∧ w1.tunnel.err = w.tunnel.err ∧
  (∀ x, w1.getEnd x = { w.getEnd x with sending := (w1.getEnd x).sending }) ∧
  (∀ x, (w1.getEnd x).sending = (w.getEnd x).sending ∨ (w1.getEnd x).sending = 1) ∧
  (w.tunnel.timeout_entry = 1 → w1.tunnel.timeout_entry = 1) ∧
  ∃ evs, w1.calls = w.calls ++ evs ∧
    ∀ ev ∈ evs, ev ≠ .free ∧ ev.isClose = false ∧ ev.isPeerSendComplete = false

/-- What holds of a tunnel that has not been torn down: flags are 0 or 1, and
neither a close nor a `free` has been called. -/
def live_tunnel (w : World) : Prop :=
  w.freed = false ∧ flagsOK w ∧ w.calls.count .free = 0 ∧ w.calls.filter Event.isClose = []

/-- What holds of a tunnel that has been torn down: `free` has been called once
and `close` twice, and both ends are shut down with no send in flight. -/
def torn_down (w : World) : Prop :=
  w.freed = true ∧ w.calls.count .free = 1 ∧ (w.calls.filter Event.isClose).length = 2 ∧
  w.tunnel.down.shutdowned = 1 ∧ w.tunnel.up.shutdowned = 1 ∧
  w.tunnel.down.sending = 0 ∧ w.tunnel.up.sending = 0

/-! ## Sample inputs -/

/-- Sockets with nothing buffered and no read callback registered. -/
def quiet_socks : Nat → Socket :=
  fun _ => { data := false, input := [], bytes_read := 0, reading := false }

/-- An end whose four operations are defined outside `tunnel.c`. -/
def foreign_end : End :=
  { open_ := .foreign, send := .foreign, on_peer_send_complete := .foreign,
    close := .foreign, data := 0, shutdowned := 0, sending := 0 }

/-- A live tunnel between two foreign ends, as `h2o_tunnel_establish` leaves it:
no send in flight, nothing shut down. -/
def idle_tunnel : World :=
  { tunnel := { timeout_entry := 1, down := foreign_end, up := foreign_end, err := none },
    freed := false, socks := quiet_socks, trace := [.timeout_link, .open_ .up, .open_ .down] }

/-- A live tunnel between the socket ends of sockets 1 and 2 in which a send to
`up` is in flight. -/
def up_sending : World :=
  { tunnel := { timeout_entry := 1, down := h2o_tunnel_socket_end_init 1,
                up := { h2o_tunnel_socket_end_init 2 with sending := 1 }, err := none },
    freed := false, socks := quiet_socks, trace := [.timeout_link] }

/-- A live tunnel between two foreign ends in which sends to both ends are in
flight. -/
def both_sending : World :=
  { tunnel := { timeout_entry := 1, down := { foreign_end with sending := 1 },
                up := { foreign_end with sending := 1 }, err := none },
    freed := false, socks := quiet_socks, trace := [.timeout_link] }

/-- Sockets of which socket 2 already holds two bytes, read before the tunnel
is established; the others are quiet. -/
def buffered_socks : Nat → Socket :=
  fun k => if k = 2 then { data := false, input := [104, 105], bytes_read := 2, reading := false }
    else { data := false, input := [], bytes_read := 0, reading := false }

/-! ## Further observations -/

/-- Is the call an `open` of some end? -/
def Event.isOpen : Event → Bool
  | .open_ _ => true
  | _ => false

/-- Is the call a write on a socket? -/
def Event.isSocketWrite : Event → Bool
  | .socket_write _ _ _ => true
  | _ => false

/-- Is the call a half-close of a socket? -/
def Event.isSocketShutdown : Event → Bool
  | .socket_shutdown _ => true
  | _ => false

/-- The call with the roles of `down` and `up` exchanged. -/
def Event.swap : Event → Event
  | .open_ e => .open_ (other e)
  | .send e bufs bufcnt is_final => .send (other e) bufs bufcnt is_final
  | .on_peer_send_complete e peer => .on_peer_send_complete (other e) (other peer)
  | .close e err => .close (other e) err
  | ev => ev

/-- The world with the roles of `down` and `up` exchanged, in the tunnel and in
the calls made so far. -/
def World.swap (w : World) : World :=
  { w with tunnel := { w.tunnel with down := w.tunnel.up, up := w.tunnel.down },
           trace := w.trace.map Event.swap }

/-- Does the entry leave a send to `e` in flight? Every entry does, except a
completion for `e` and a forward from the other end, whose target is `e`. -/
def Op.keeps_in_flight (e : EndId) : Op → Bool
  | .notify_sent x => decide (x ≠ e)
  | .send from_ _ _ _ => decide (from_ = e)
  | _ => true

/-! ## Basic facts about the world record -/

@[simp] theorem log_tunnel (w : World) (ev : Event) : (w.log ev).tunnel = w.tunnel := rfl
@[simp] theorem log_freed (w : World) (ev : Event) : (w.log ev).freed = w.freed := rfl
@[simp] theorem log_trace (w : World) (ev : Event) : (w.log ev).trace = w.trace ++ [ev] := rfl
@[simp] theorem log_socks (w : World) (ev : Event) : (w.log ev).socks = w.socks := rfl
@[simp] theorem setSock_tunnel (w : World) (k : Nat) (s : Socket) :
    (w.setSock k s).tunnel = w.tunnel := rfl
@[simp] theorem setSock_freed (w : World) (k : Nat) (s : Socket) :
    (w.setSock k s).freed = w.freed := rfl
@[simp] theorem setSock_trace (w : World) (k : Nat) (s : Socket) :
    (w.setSock k s).trace = w.trace := rfl
@[simp] theorem setEnd_freed (w : World) (e : EndId) (x : End) :
    (w.setEnd e x).freed = w.freed := by cases e <;> rfl
@[simp] theorem setEnd_trace (w : World) (e : EndId) (x : End) :
    (w.setEnd e x).trace = w.trace := by cases e <;> rfl
@[simp] theorem setEnd_socks (w : World) (e : EndId) (x : End) :
    (w.setEnd e x).socks = w.socks := by cases e <;> rfl
@[simp] theorem getEnd_setEnd (w : World) (e : EndId) (x : End) :
    (w.setEnd e x).getEnd e = x := by cases e <;> rfl
@[simp] theorem getEnd_setEnd_other (w : World) (e : EndId) (x : End) :
    (w.setEnd e x).getEnd (other e) = w.getEnd (other e) := by cases e <;> rfl
@[simp] theorem getEnd_setEnd_other2 (w : World) (e : EndId) (x : End) :
    (w.setEnd (other e) x).getEnd e = w.getEnd e := by cases e <;> rfl
@[simp] theorem setEnd_err (w : World) (e : EndId) (x : End) :
    (w.setEnd e x).tunnel.err = w.tunnel.err := by cases e <;> rfl
@[simp] theorem setEnd_timeout_entry (w : World) (e : EndId) (x : End) :
    (w.setEnd e x).tunnel.timeout_entry = w.tunnel.timeout_entry := by cases e <;> rfl
@[simp] theorem other_other (e : EndId) : other (other e) = e := by cases e <;> rfl
@[simp] theorem other_ne (e : EndId) : other e ≠ e := by cases e <;> decide
@[simp] theorem other_down : other .down = .up := rfl
@[simp] theorem other_up : other .up = .down := rfl

@[simp] theorem isSocketCall_timeout_unlink : Event.timeout_unlink.isSocketCall = false := rfl
@[simp] theorem isSocketCall_timeout_link : Event.timeout_link.isSocketCall = false := rfl
@[simp] theorem isSocketCall_open (e : EndId) : (Event.open_ e).isSocketCall = false := rfl
@[simp] theorem isSocketCall_send (e : EndId) (bufs : List Iovec) (n : Nat) (f : Int) :
    (Event.send e bufs n f).isSocketCall = false := rfl
@[simp] theorem isSocketCall_psc (e p : EndId) :
    (Event.on_peer_send_complete e p).isSocketCall = false := rfl
@[simp] theorem isSocketCall_close (e : EndId) (err : Option String) :
    (Event.close e err).isSocketCall = false := rfl
@[simp] theorem isSocketCall_free : Event.free.isSocketCall = false := rfl
@[simp] theorem isSocketCall_read_start (k : Nat) :
    (Event.socket_read_start k).isSocketCall = true := rfl
@[simp] theorem isSocketCall_read_stop (k : Nat) :
    (Event.socket_read_stop k).isSocketCall = true := rfl
@[simp] theorem isSocketCall_write (k : Nat) (bufs : List Iovec) (n : Nat) :
    (Event.socket_write k bufs n).isSocketCall = true := rfl
@[simp] theorem isSocketCall_shutdown (k : Nat) :
    (Event.socket_shutdown k).isSocketCall = true := rfl
@[simp] theorem isSocketCall_socket_close (k : Nat) :
    (Event.socket_close k).isSocketCall = true := rfl
@[simp] theorem isSocketCall_consume (k n : Nat) :
    (Event.buffer_consume k n).isSocketCall = true := rfl

@[simp] theorem calls_mk (t : Tunnel) (f : Bool) (s : Nat → Socket) (tr : List Event) :
    World.calls { tunnel := t, freed := f, socks := s, trace := tr } =
      tr.filter (fun ev => !ev.isSocketCall) := rfl
@[simp] theorem filter_trace (w : World) :
    w.trace.filter (fun ev => !ev.isSocketCall) = w.calls := rfl

@[simp] theorem calls_log (w : World) (ev : Event) :
    (w.log ev).calls = w.calls ++ (if ev.isSocketCall then [] else [ev]) := by
  cases h : ev.isSocketCall <;> simp [World.log, List.filter_append, h]
theorem calls_def (w : World) : w.calls = w.trace.filter (fun ev => !ev.isSocketCall) := rfl
@[simp] theorem calls_setSock (w : World) (k : Nat) (s : Socket) :
    (w.setSock k s).calls = w.calls := rfl
@[simp] theorem calls_setEnd (w : World) (e : EndId) (x : End) :
    (w.setEnd e x).calls = w.calls := by cases e <;> rfl

/-! ## Effect of each function on the tunnel, the freed mark and the calls -/

@[simp] theorem unlink_tunnel (w : World) :
    (h2o_timeout_unlink w).tunnel = { w.tunnel with timeout_entry := 0 } := rfl
@[simp] theorem unlink_freed (w : World) : (h2o_timeout_unlink w).freed = w.freed := rfl
@[simp] theorem unlink_calls (w : World) :
    (h2o_timeout_unlink w).calls = w.calls ++ [.timeout_unlink] := by
  simp [h2o_timeout_unlink]
@[simp] theorem link_tunnel (w : World) :
    (h2o_timeout_link w).tunnel =
      { w.tunnel with timeout_entry := w.tunnel.timeout_entry + 1 } := rfl
@[simp] theorem link_freed (w : World) : (h2o_timeout_link w).freed = w.freed := rfl
@[simp] theorem link_calls (w : World) :
    (h2o_timeout_link w).calls = w.calls ++ [.timeout_link] := by
  simp [h2o_timeout_link]

@[simp] theorem reset_timeout_tunnel (w : World) :
    (reset_timeout w).tunnel = { w.tunnel with timeout_entry := 1 } := rfl
@[simp] theorem reset_timeout_freed (w : World) : (reset_timeout w).freed = w.freed := rfl
@[simp] theorem reset_timeout_calls (w : World) :
    (reset_timeout w).calls = w.calls ++ [.timeout_unlink, .timeout_link] := by
  simp [reset_timeout]

@[simp] theorem invoke_close_tunnel (w : World) (e : EndId) (err : Option String) :
    (invoke_close w e err).tunnel = w.tunnel := by
  unfold invoke_close; dsimp only; split <;> rfl
@[simp] theorem invoke_close_freed (w : World) (e : EndId) (err : Option String) :
    (invoke_close w e err).freed = w.freed := by
  unfold invoke_close; dsimp only; split <;> rfl
@[simp] theorem invoke_close_calls (w : World) (e : EndId) (err : Option String) :
    (invoke_close w e err).calls = w.calls ++ [.close e err] := by
  unfold invoke_close; dsimp only
  split <;> simp [socket_end_close, h2o_socket_close]

@[simp] theorem break_now_tunnel (w : World) :
    (break_now w).tunnel = { w.tunnel with timeout_entry := 0 } := by
  simp [break_now]
@[simp] theorem break_now_freed (w : World) : (break_now w).freed = true := by
  simp [break_now]
@[simp] theorem break_now_calls (w : World) :
    (break_now w).calls = w.calls ++ teardown_calls w.tunnel.err := by
  have h : (break_now w).trace =
      (invoke_close (invoke_close (h2o_timeout_unlink w) .down
        (h2o_timeout_unlink w).tunnel.err) .up
        (invoke_close (h2o_timeout_unlink w) .down
          (h2o_timeout_unlink w).tunnel.err).tunnel.err).trace ++ [.free] := rfl
  rw [calls_def, h, List.filter_append, ← calls_def]
  simp [teardown_calls]

@[simp] theorem invoke_psc_tunnel (w : World) (e peer : EndId) :
    (invoke_on_peer_send_complete w e peer).tunnel = w.tunnel := by
  unfold invoke_on_peer_send_complete; dsimp only; split <;> rfl
@[simp] theorem invoke_psc_freed (w : World) (e peer : EndId) :
    (invoke_on_peer_send_complete w e peer).freed = w.freed := by
  unfold invoke_on_peer_send_complete; dsimp only; split <;> rfl
@[simp] theorem invoke_psc_calls (w : World) (e peer : EndId) :
    (invoke_on_peer_send_complete w e peer).calls =
      w.calls ++ [.on_peer_send_complete e peer] := by
  unfold invoke_on_peer_send_complete; dsimp only
  split <;> simp [socket_end_on_peer_send_complete, h2o_buffer_consume, h2o_socket_read_start]

theorem is_sending_iff (w : World) :
    is_sending w = true ↔ w.tunnel.down.sending = 1 ∨ w.tunnel.up.sending = 1 := by
  simp [is_sending]

theorem is_sending_congr {w1 w2 : World} (hd : w1.tunnel.down.sending = w2.tunnel.down.sending)
    (hu : w1.tunnel.up.sending = w2.tunnel.up.sending) : is_sending w1 = is_sending w2 := by
  simp [is_sending, hd, hu]

/-- What `h2o_tunnel_break` does to the tunnel, the freed mark and the calls. -/
theorem break_spec (w : World) (err : Option String) :
    (h2o_tunnel_break w err).tunnel.err = err ∧
    (h2o_tunnel_break w err).tunnel.down = { w.tunnel.down with shutdowned := 1 } ∧
    (h2o_tunnel_break w err).tunnel.up = { w.tunnel.up with shutdowned := 1 } ∧
    (h2o_tunnel_break w err).tunnel.timeout_entry =
      (if is_sending w then w.tunnel.timeout_entry else 0) ∧
    (h2o_tunnel_break w err).freed = (if is_sending w then w.freed else true) ∧
    (h2o_tunnel_break w err).calls =
      w.calls ++ (if is_sending w then [] else teardown_calls err) := by
  by_cases hd : w.tunnel.down.sending = 1 <;> by_cases hu : w.tunnel.up.sending = 1 <;>
    simp [h2o_tunnel_break, World.setEnd, is_sending, hd, hu]

/-- What a completion with `sending == 1` does. -/
theorem notify_sent_spec (w : World) (e : EndId) (h : (w.getEnd e).sending = 1) :
    ∃ w1, h2o_tunnel_notify_sent w e = .ok w1 ∧
      w1.getEnd e = { w.getEnd e with sending := 0 } ∧
      w1.getEnd (other e) = w.getEnd (other e) ∧
      w1.tunnel.err = w.tunnel.err ∧
      w1.tunnel.timeout_entry =
        (if (w.getEnd (other e)).sending ≠ 1 ∧ w.tunnel.down.shutdowned ≠ 0 ∧
            w.tunnel.up.shutdowned ≠ 0 then 0 else 1) ∧
      w1.freed =
        (if (w.getEnd (other e)).sending ≠ 1 ∧ w.tunnel.down.shutdowned ≠ 0 ∧
            w.tunnel.up.shutdowned ≠ 0 then true else w.freed) ∧
      w1.calls = w.calls ++ [.timeout_unlink, .timeout_link] ++
        (if (w.getEnd (other e)).on_peer_send_complete ≠ .null then
          [.on_peer_send_complete (other e) e] else []) ++
        (if (w.getEnd (other e)).sending ≠ 1 ∧ w.tunnel.down.shutdowned ≠ 0 ∧
            w.tunnel.up.shutdowned ≠ 0 then teardown_calls w.tunnel.err else []) := by
  unfold h2o_tunnel_notify_sent
  rw [if_neg (by simpa using h)]
  dsimp only
  cases e
  · simp only [World.getEnd] at h
    by_cases hp : w.tunnel.up.on_peer_send_complete = .null <;>
    by_cases hu : w.tunnel.up.sending = 1 <;>
    by_cases hd : w.tunnel.down.shutdowned = 0 <;>
    by_cases hud : w.tunnel.up.shutdowned = 0 <;>
    simp [World.getEnd, World.setEnd, is_sending, hp, hu, hd, hud]
  · simp only [World.getEnd] at h
    by_cases hp : w.tunnel.down.on_peer_send_complete = .null <;>
    by_cases hu : w.tunnel.down.sending = 1 <;>
    by_cases hd : w.tunnel.down.shutdowned = 0 <;>
    by_cases hud : w.tunnel.up.shutdowned = 0 <;>
    simp [World.getEnd, World.setEnd, is_sending, hp, hu, hd, hud]

/-- The state in which `h2o_tunnel_send` calls `to->send`. -/
theorem send_pre (w : World) (from_ : EndId) (bufs : List Iovec) (bufcnt : Nat)
    (is_final : Int) :
    ∃ pre, h2o_tunnel_send w from_ bufs bufcnt is_final =
        invoke_send pre (other from_) bufs bufcnt is_final ∧
      pre.getEnd from_ = { w.getEnd from_ with
        shutdowned := if is_final ≠ 0 then 1 else (w.getEnd from_).shutdowned } ∧
      pre.getEnd (other from_) = { w.getEnd (other from_) with sending := 1 } ∧
      pre.tunnel.err = w.tunnel.err ∧
      pre.tunnel.timeout_entry = 1 ∧
      pre.freed = w.freed ∧
      pre.socks = w.socks ∧
      pre.calls = w.calls ++ [.timeout_unlink, .timeout_link] := by
  refine ⟨_, rfl, ?_⟩
  cases from_ <;> by_cases hf : is_final = 0 <;>
    simp [World.getEnd, World.setEnd, hf, reset_timeout, h2o_timeout_link, h2o_timeout_unlink]

/-- The completion seen from a world `w2` that agrees with `w` on the tunnel and
the freed mark. -/
theorem notify_sent_from (w w2 : World) (e : EndId) (calls2 : List Event)
    (h : (w.getEnd e).sending = 1) (ht : w2.tunnel = w.tunnel) (hfr : w2.freed = w.freed)
    (hc : w2.calls = calls2) :
    ∃ w1, h2o_tunnel_notify_sent w2 e = .ok w1 ∧
      w1.getEnd e = { w.getEnd e with sending := 0 } ∧
      w1.getEnd (other e) = w.getEnd (other e) ∧
      w1.tunnel.err = w.tunnel.err ∧
      w1.tunnel.timeout_entry =
        (if (w.getEnd (other e)).sending ≠ 1 ∧ w.tunnel.down.shutdowned ≠ 0 ∧
          w.tunnel.up.shutdowned ≠ 0 then 0 else 1) ∧
      w1.freed =
        (if (w.getEnd (other e)).sending ≠ 1 ∧ w.tunnel.down.shutdowned ≠ 0 ∧
          w.tunnel.up.shutdowned ≠ 0 then true else w.freed) ∧
      w1.calls = calls2 ++ [.timeout_unlink, .timeout_link] ++
        (if (w.getEnd (other e)).on_peer_send_complete ≠ .null then
          [.on_peer_send_complete (other e) e] else []) ++
        (if (w.getEnd (other e)).sending ≠ 1 ∧ w.tunnel.down.shutdowned ≠ 0 ∧
          w.tunnel.up.shutdowned ≠ 0 then teardown_calls w.tunnel.err else []) := by
  have hg : ∀ x, w2.getEnd x = w.getEnd x := by
    intro x; cases x <;> simp [World.getEnd, ht]
  obtain ⟨w1, h1, h2, h3, h4, h5, h6, h7⟩ := notify_sent_spec w2 e (by rw [hg]; exact h)
  refine ⟨w1, h1, ?_, ?_, ?_, ?_, ?_, ?_⟩
  · rw [h2, hg]
  · rw [h3, hg]
  · rw [h4, ht]
  · rw [h5, hg, ht]
  · rw [h6, hg, ht, hfr]
  · simp only [h7, hg, ht, hc]

/-- The function `socket_end_send` with no buffers completes the send at once. -/
theorem socket_end_send_zero (w w2 : World) (e : EndId) (bufs : List Iovec) (is_final : Int)
    (calls2 : List Event)
    (h : (w.getEnd e).sending = 1) (ht : w2.tunnel = w.tunnel) (hfr : w2.freed = w.freed)
    (hc : w2.calls = calls2) :
    ∃ w1, socket_end_send w2 e bufs 0 is_final = .ok w1 ∧
      w1.getEnd e = { w.getEnd e with sending := 0 } ∧
      w1.getEnd (other e) = w.getEnd (other e) ∧
      w1.tunnel.err = w.tunnel.err ∧
      w1.tunnel.timeout_entry =
        (if (w.getEnd (other e)).sending ≠ 1 ∧ w.tunnel.down.shutdowned ≠ 0 ∧
          w.tunnel.up.shutdowned ≠ 0 then 0 else 1) ∧
      w1.freed =
        (if (w.getEnd (other e)).sending ≠ 1 ∧ w.tunnel.down.shutdowned ≠ 0 ∧
          w.tunnel.up.shutdowned ≠ 0 then true else w.freed) ∧
      w1.calls = calls2 ++ [.timeout_unlink, .timeout_link] ++
        (if (w.getEnd (other e)).on_peer_send_complete ≠ .null then
          [.on_peer_send_complete (other e) e] else []) ++
        (if (w.getEnd (other e)).sending ≠ 1 ∧ w.tunnel.down.shutdowned ≠ 0 ∧
          w.tunnel.up.shutdowned ≠ 0 then teardown_calls w.tunnel.err else []) := by
  unfold socket_end_send
  dsimp only
  by_cases hfin : is_final = 0
  · simp only [ne_eq, eq_self_iff_true, not_true_eq_false, if_false, if_true, hfin]
    subst hfin
    exact notify_sent_from w w2 e calls2 h ht hfr hc
  · simp only [ne_eq, eq_self_iff_true, not_true_eq_false, not_false_eq_true, if_false,
      if_true, hfin]
    exact notify_sent_from w _ e calls2 h ht hfr (by simpa [h2o_socket_shutdown] using hc)

/-- The function `socket_end_send` with buffers leaves the send pending. -/
theorem socket_end_send_pending (w : World) (e : EndId) (bufs : List Iovec) (bufcnt : Nat)
    (is_final : Int) (hb : bufcnt ≠ 0) :
    ∃ w1, socket_end_send w e bufs bufcnt is_final = .ok w1 ∧
      w1.tunnel = w.tunnel ∧ w1.freed = w.freed ∧ w1.calls = w.calls := by
  unfold socket_end_send
  dsimp only
  rw [if_pos hb, if_neg hb]
  refine ⟨_, rfl, ?_⟩
  by_cases hfin : is_final = 0 <;> simp [hfin, h2o_socket_write, h2o_socket_shutdown]

theorem end_eta (x : End) (s : SendFn) (n : Nat) (hs : x.send = s) (hn : x.sending = n) :
    x = { open_ := x.open_, send := s, on_peer_send_complete := x.on_peer_send_complete,
          close := x.close, data := x.data, shutdowned := x.shutdowned, sending := n } := by
  cases x; simp at hs hn; simp [hs, hn]

/-- What the call through `to->send` does when the target is marked sending:
a socket end given no buffers completes at once, any other call returns with
the send pending. -/
theorem invoke_send_spec (w : World) (e : EndId) (bufs : List Iovec) (bufcnt : Nat)
    (is_final : Int) (h : (w.getEnd e).sending = 1) :
    ∃ w1, invoke_send w e bufs bufcnt is_final = .ok w1 ∧
      w1.getEnd e = { w.getEnd e with sending :=
        if (w.getEnd e).send = .socket_end_send ∧ bufcnt = 0 then 0 else 1 } ∧
      w1.getEnd (other e) = w.getEnd (other e) ∧
      w1.tunnel.err = w.tunnel.err ∧
      w1.tunnel.timeout_entry =
        (if (w.getEnd e).send = .socket_end_send ∧ bufcnt = 0 then
          (if (w.getEnd (other e)).sending ≠ 1 ∧ w.tunnel.down.shutdowned ≠ 0 ∧
            w.tunnel.up.shutdowned ≠ 0 then 0 else 1)
         else w.tunnel.timeout_entry) ∧
      w1.freed =
        (if (w.getEnd e).send = .socket_end_send ∧ bufcnt = 0 then
          (if (w.getEnd (other e)).sending ≠ 1 ∧ w.tunnel.down.shutdowned ≠ 0 ∧
            w.tunnel.up.shutdowned ≠ 0 then true else w.freed)
         else w.freed) ∧
      w1.calls = w.calls ++ [.send e bufs bufcnt is_final] ++
        (if (w.getEnd e).send = .socket_end_send ∧ bufcnt = 0 then
          [.timeout_unlink, .timeout_link] ++
          (if (w.getEnd (other e)).on_peer_send_complete ≠ .null then
            [.on_peer_send_complete (other e) e] else []) ++
          (if (w.getEnd (other e)).sending ≠ 1 ∧ w.tunnel.down.shutdowned ≠ 0 ∧
              w.tunnel.up.shutdowned ≠ 0 then teardown_calls w.tunnel.err else [])
         else []) := by
  have hlog : ((w.log (.send e bufs bufcnt is_final)).getEnd e).send = (w.getEnd e).send := by
    cases e <;> rfl
  unfold invoke_send
  dsimp only
  rw [hlog]
  by_cases hs : (w.getEnd e).send = .socket_end_send
  · rw [hs]
    dsimp only
    by_cases hb : bufcnt = 0
    · subst hb
      obtain ⟨w1, h1, h2, h3, h4, h5, h6, h7⟩ :=
        socket_end_send_zero w (w.log (.send e bufs 0 is_final)) e bufs is_final
          (w.calls ++ [.send e bufs 0 is_final]) h rfl rfl (by simp)
      refine ⟨w1, h1, ?_, h3, h4, ?_, ?_, ?_⟩
      · rw [h2]; simp [hs]
      · rw [h5]; simp [hs]
      · rw [h6]; simp [hs]
      · rw [h7]; simp [hs]
    · obtain ⟨w1, h1, h2, h3, h4⟩ :=
        socket_end_send_pending (w.log (.send e bufs bufcnt is_final)) e bufs bufcnt is_final hb
      have hg : ∀ x, w1.getEnd x = w.getEnd x := by
        intro x; cases x <;> simp [World.getEnd, h2]
      refine ⟨w1, h1, ?_, hg _, ?_, ?_, ?_, ?_⟩
      · rw [hg]; simp only [hb, and_false, if_false]; exact end_eta _ _ _ hs h
      · rw [h2]; rfl
      · rw [h2]; simp [hb]
      · rw [h3]; simp [hb]
      · rw [h4]; simp [hb]
  · have hs2 : (w.getEnd e).send = .foreign := by
      cases hh : (w.getEnd e).send
      · exact absurd hh hs
      · rfl
    rw [hs2]
    refine ⟨_, rfl, ?_⟩
    have hg : ∀ x, (w.log (.send e bufs bufcnt is_final)).getEnd x = w.getEnd x := by
      intro x; cases x <;> rfl
    refine ⟨?_, hg _, rfl, ?_, ?_, ?_⟩
    · rw [hg]; simp; exact end_eta _ _ _ hs2 h
    · simp
    · simp
    · simp

/-- What `h2o_tunnel_send` does to the tunnel, the freed mark and the calls.
The send completes inside the call exactly when the target is a socket end and
there is no buffer. -/
theorem send_spec (w : World) (from_ : EndId) (bufs : List Iovec) (bufcnt : Nat)
    (is_final : Int) :
    ∃ w1, h2o_tunnel_send w from_ bufs bufcnt is_final = .ok w1 ∧
      w1.getEnd from_ = { w.getEnd from_ with
        shutdowned := if is_final ≠ 0 then 1 else (w.getEnd from_).shutdowned } ∧
      w1.getEnd (other from_) = { w.getEnd (other from_) with sending :=
        if (w.getEnd (other from_)).send = .socket_end_send ∧ bufcnt = 0 then 0 else 1 } ∧
      w1.tunnel.err = w.tunnel.err ∧
      w1.tunnel.timeout_entry =
        (if ((w.getEnd (other from_)).send = .socket_end_send ∧ bufcnt = 0) ∧
            (w.getEnd from_).sending ≠ 1 ∧
            (is_final ≠ 0 ∨ (w.getEnd from_).shutdowned ≠ 0) ∧
            (w.getEnd (other from_)).shutdowned ≠ 0 then 0 else 1) ∧
      w1.freed =
        (if ((w.getEnd (other from_)).send = .socket_end_send ∧ bufcnt = 0) ∧
            (w.getEnd from_).sending ≠ 1 ∧
            (is_final ≠ 0 ∨ (w.getEnd from_).shutdowned ≠ 0) ∧
            (w.getEnd (other from_)).shutdowned ≠ 0 then true else w.freed) ∧
      w1.calls = w.calls ++
        [.timeout_unlink, .timeout_link, .send (other from_) bufs bufcnt is_final] ++
        (if (w.getEnd (other from_)).send = .socket_end_send ∧ bufcnt = 0 then
          [.timeout_unlink, .timeout_link] ++
          (if (w.getEnd from_).on_peer_send_complete ≠ .null then
            [.on_peer_send_complete from_ (other from_)] else []) ++
          (if (w.getEnd from_).sending ≠ 1 ∧
              (is_final ≠ 0 ∨ (w.getEnd from_).shutdowned ≠ 0) ∧
              (w.getEnd (other from_)).shutdowned ≠ 0 then teardown_calls w.tunnel.err
           else [])
         else []) := by
  obtain ⟨pre, hp, p1, p2, p3, p4, p5, _, p7⟩ := send_pre w from_ bufs bufcnt is_final
  obtain ⟨w1, h1, h2, h3, h4, h5, h6, h7⟩ :=
    invoke_send_spec pre (other from_) bufs bufcnt is_final (by rw [p2])
  rw [other_other] at h3 h5 h6 h7
  have hcond : (pre.tunnel.down.shutdowned ≠ 0 ∧ pre.tunnel.up.shutdowned ≠ 0) ↔
      ((is_final ≠ 0 ∨ (w.getEnd from_).shutdowned ≠ 0) ∧
        (w.getEnd (other from_)).shutdowned ≠ 0) := by
    cases from_
    · have a : pre.tunnel.down = _ := p1
      have b : pre.tunnel.up = _ := p2
      rw [a, b]
      by_cases hf : is_final = 0 <;> simp [hf]
    · have a : pre.tunnel.up = _ := p1
      have b : pre.tunnel.down = _ := p2
      rw [a, b]
      by_cases hf : is_final = 0 <;> simp [hf, and_comm]
  refine ⟨w1, hp.trans h1, ?_, ?_, ?_, ?_, ?_, ?_⟩
  · rw [h3, p1]
  · rw [h2, p2]
  · rw [h4, p3]
  · rw [h5, p1, p2, p4]
    by_cases hs : (w.getEnd (other from_)).send = .socket_end_send ∧ bufcnt = 0
    · simp only [hs, and_self, if_true, true_and, hcond]
    · simp [hs]
  · rw [h6, p1, p2, p5]
    by_cases hs : (w.getEnd (other from_)).send = .socket_end_send ∧ bufcnt = 0
    · simp only [hs, and_self, if_true, true_and, hcond]
    · simp [hs]
  · rw [h7, p1, p2, p3, p7]
    by_cases hs : (w.getEnd (other from_)).send = .socket_end_send ∧ bufcnt = 0
    · simp only [hs, and_self, if_true, true_and, hcond, List.append_assoc,
        List.cons_append, List.nil_append]
    · simp [hs]

@[simp] theorem getEnd_log (w : World) (ev : Event) (x : EndId) :
    (w.log ev).getEnd x = w.getEnd x := by cases x <;> rfl
@[simp] theorem getEnd_setSock (w : World) (k : Nat) (s : Socket) (x : EndId) :
    (w.setSock k s).getEnd x = w.getEnd x := by cases x <;> rfl
@[simp] theorem read_stop_tunnel (w : World) (k : Nat) :
    (h2o_socket_read_stop w k).tunnel = w.tunnel := rfl
@[simp] theorem read_stop_freed (w : World) (k : Nat) :
    (h2o_socket_read_stop w k).freed = w.freed := rfl
@[simp] theorem read_stop_calls (w : World) (k : Nat) :
    (h2o_socket_read_stop w k).calls = w.calls := by simp [h2o_socket_read_stop]
@[simp] theorem read_stop_getEnd (w : World) (k : Nat) (x : EndId) :
    (h2o_socket_read_stop w k).getEnd x = w.getEnd x := by cases x <;> rfl
@[simp] theorem read_start_tunnel (w : World) (k : Nat) :
    (h2o_socket_read_start w k).tunnel = w.tunnel := rfl
@[simp] theorem read_start_freed (w : World) (k : Nat) :
    (h2o_socket_read_start w k).freed = w.freed := rfl
@[simp] theorem read_start_calls (w : World) (k : Nat) :
    (h2o_socket_read_start w k).calls = w.calls := by simp [h2o_socket_read_start]
@[simp] theorem read_start_getEnd (w : World) (k : Nat) (x : EndId) :
    (h2o_socket_read_start w k).getEnd x = w.getEnd x := by cases x <;> rfl

theorem getEnd_of_tunnel {w1 w2 : World} (h : w1.tunnel = w2.tunnel) (x : EndId) :
    w1.getEnd x = w2.getEnd x := by cases x <;> simp [World.getEnd, h]

/-- A forward of one buffer that is not final: nothing completes, nothing is
torn down, only the target is marked sending. -/
theorem send_one_spec (w : World) (from_ : EndId) (buf : Iovec) :
    ∃ w1, h2o_tunnel_send w from_ [buf] 1 0 = .ok w1 ∧
      w1.getEnd from_ = w.getEnd from_ ∧
      w1.getEnd (other from_) = { w.getEnd (other from_) with sending := 1 } ∧
      w1.tunnel.err = w.tunnel.err ∧ w1.tunnel.timeout_entry = 1 ∧ w1.freed = w.freed ∧
      w1.calls = w.calls ++ [.timeout_unlink, .timeout_link, .send (other from_) [buf] 1 0] := by
  obtain ⟨w1, h1, h2, h3, h4, h5, h6, h7⟩ := send_spec w from_ [buf] 1 0
  refine ⟨w1, h1, ?_, ?_, h4, ?_, ?_, ?_⟩
  · rw [h2]; simp
  · rw [h3]; simp
  · rw [h5]; simp
  · rw [h6]; simp
  · rw [h7]; simp

theorem opened_refl (w : World) : opened w w :=
  ⟨rfl, rfl, fun _ => rfl, fun _ => Or.inl rfl, id, [], by simp, by simp⟩

theorem opened_of_eq (w w1 : World) (evs : List Event) (ht : w1.tunnel = w.tunnel)
    (hf : w1.freed = w.freed) (hc : w1.calls = w.calls ++ evs)
    (hq : ∀ ev ∈ evs, ev ≠ .free ∧ ev.isClose = false ∧ ev.isPeerSendComplete = false) :
    opened w w1 := by
  refine ⟨hf, by rw [ht], fun x => ?_, fun x => Or.inl ?_, fun h => by rw [ht]; exact h,
    evs, hc, hq⟩
  · rw [getEnd_of_tunnel ht]
  · rw [getEnd_of_tunnel ht]

theorem opened_trans {a b c : World} (h1 : opened a b) (h2 : opened b c) : opened a c := by
  obtain ⟨f1, e1, g1, s1, t1, evs1, c1, q1⟩ := h1
  obtain ⟨f2, e2, g2, s2, t2, evs2, c2, q2⟩ := h2
  refine ⟨f2.trans f1, e2.trans e1, fun x => ?_, fun x => ?_, fun h => t2 (t1 h),
    evs1 ++ evs2, by rw [c2, c1, List.append_assoc], ?_⟩
  · rw [g2 x, g1 x]
  · rcases s2 x with h | h
    · rw [h]; exact s1 x
    · exact Or.inr h
  · intro ev hev
    rcases List.mem_append.mp hev with h | h
    · exact q1 ev h
    · exact q2 ev h

/-- The function `on_socket_read` without an error either does nothing or forwards the input
buffer. -/
theorem on_socket_read_none_opened (w : World) (sock : Nat) :
    ∃ w1, on_socket_read w sock none = .ok w1 ∧ opened w w1 := by
  unfold on_socket_read
  dsimp only
  by_cases hb : (w.socks sock).bytes_read = 0
  · rw [if_pos hb]; exact ⟨w, rfl, opened_refl w⟩
  · rw [if_neg hb]
    obtain ⟨w1, h1, h2, h3, h4, h5, h6, h7⟩ :=
      send_one_spec (h2o_socket_read_stop w sock)
        (if w.tunnel.down.data = sock then EndId.down else EndId.up)
        ((h2o_socket_read_stop w sock).socks sock).input
    refine ⟨w1, h1, ?_⟩
    simp only [read_stop_getEnd, read_stop_tunnel, read_stop_freed, read_stop_calls]
      at h2 h3 h4 h6 h7
    refine ⟨h6, h4, fun x => ?_, fun x => ?_, fun _ => h5, _, h7, ?_⟩
    · by_cases hx : x = (if w.tunnel.down.data = sock then EndId.down else EndId.up)
      · rw [hx, h2]
      · have hx2 : x = other (if w.tunnel.down.data = sock then EndId.down else EndId.up) := by
          revert hx; generalize (if w.tunnel.down.data = sock then EndId.down else EndId.up) = y
          cases x <;> cases y <;> simp
        rw [hx2, h3]
    · by_cases hx : x = (if w.tunnel.down.data = sock then EndId.down else EndId.up)
      · left; rw [hx, h2]
      · have hx2 : x = other (if w.tunnel.down.data = sock then EndId.down else EndId.up) := by
          revert hx; generalize (if w.tunnel.down.data = sock then EndId.down else EndId.up) = y
          cases x <;> cases y <;> simp
        right; rw [hx2, h3]
    · intro ev hev
      simp at hev
      rcases hev with h | h | h <;> subst h <;> simp [Event.isClose, Event.isPeerSendComplete]

/-- The call through `open` returns, without a completion and without a
teardown. -/
theorem invoke_open_opened (w : World) (e : EndId) :
    ∃ w1, invoke_open w e = .ok w1 ∧ opened w w1 := by
  have hlog : opened w (w.log (.open_ e)) :=
    opened_of_eq w _ [.open_ e] rfl rfl (by simp)
      (by intro ev hev; simp at hev; subst hev; simp [Event.isClose, Event.isPeerSendComplete])
  unfold invoke_open
  dsimp only
  split
  · unfold socket_end_open
    dsimp only
    have hset : opened (w.log (.open_ e))
        ((w.log (.open_ e)).setSock ((w.log (.open_ e)).getEnd e).data
          { (w.log (.open_ e)).socks ((w.log (.open_ e)).getEnd e).data with data := true }) :=
      opened_of_eq _ _ [] rfl rfl (by simp) (by simp)
    split
    · obtain ⟨w1, h1, h2⟩ := on_socket_read_none_opened
        ((w.log (.open_ e)).setSock ((w.log (.open_ e)).getEnd e).data
          { (w.log (.open_ e)).socks ((w.log (.open_ e)).getEnd e).data with data := true })
        ((w.log (.open_ e)).getEnd e).data
      rw [h1]
      refine ⟨_, rfl, opened_trans hlog (opened_trans hset (opened_trans h2 ?_))⟩
      exact opened_of_eq _ _ [] rfl rfl (by simp) (by simp)
    · refine ⟨_, rfl, opened_trans hlog (opened_trans hset ?_)⟩
      exact opened_of_eq _ _ [] rfl rfl (by simp) (by simp)
  · exact ⟨_, rfl, hlog⟩

/-- The world in which `h2o_tunnel_establish` starts calling `open`. -/
theorem establish_eq (down up : End) (socks : Nat → Socket) :
    ∃ wi : World,
      wi.tunnel = { timeout_entry := 1, down := { down with shutdowned := 0, sending := 0 },
                    up := { up with shutdowned := 0, sending := 0 }, err := none } ∧
      wi.freed = false ∧ wi.socks = socks ∧ wi.trace = [.timeout_link] ∧
      h2o_tunnel_establish down up socks =
        ((if wi.tunnel.up.open_ ≠ .null then invoke_open wi .up else .ok wi) >>= fun w =>
          if w.tunnel.down.open_ ≠ .null then invoke_open w .down else .ok w) := by
  have hid : ∀ x : Except Fault World, (x >>= fun w => Except.ok w) = x := by
    intro x; cases x <;> rfl
  refine ⟨World.mk (Tunnel.mk 1 { down with shutdowned := 0, sending := 0 }
    { up with shutdowned := 0, sending := 0 } none) false socks [.timeout_link],
    rfl, rfl, rfl, rfl, ?_⟩
  unfold h2o_tunnel_establish
  simp only [hid]
  rfl

/-- The function `h2o_tunnel_establish` returns a live tunnel with no error, the timer armed,
both `shutdowned` flags 0, each `sending` flag 0 or 1, the ends otherwise as
passed in, and neither a close, a completion notice nor a `free` among its
calls. -/
theorem establish_spec (down up : End) (socks : Nat → Socket) :
    ∃ w0, h2o_tunnel_establish down up socks = .ok w0 ∧
      w0.freed = false ∧ w0.tunnel.err = none ∧ w0.tunnel.timeout_entry = 1 ∧
      w0.tunnel.down = { down with shutdowned := 0, sending := w0.tunnel.down.sending } ∧
      w0.tunnel.up = { up with shutdowned := 0, sending := w0.tunnel.up.sending } ∧
      w0.tunnel.down.sending ≤ 1 ∧ w0.tunnel.up.sending ≤ 1 ∧
      ∀ ev ∈ w0.calls, ev ≠ .free ∧ ev.isClose = false ∧ ev.isPeerSendComplete = false := by
  obtain ⟨wi, hwt, hwf, _, hwtr, heq⟩ := establish_eq down up socks
  rw [heq]
  have h1 : ∃ w1, (if wi.tunnel.up.open_ ≠ .null then invoke_open wi .up else .ok wi) =
      .ok w1 ∧
      opened wi w1 := by
    split
    · exact invoke_open_opened wi .up
    · exact ⟨wi, rfl, opened_refl wi⟩
  obtain ⟨w1, e1, o1⟩ := h1
  have h2 : ∃ w2, (if w1.tunnel.down.open_ ≠ .null then invoke_open w1 .down else .ok w1) =
      .ok w2 ∧ opened w1 w2 := by
    split
    · exact invoke_open_opened w1 .down
    · exact ⟨w1, rfl, opened_refl w1⟩
  obtain ⟨w2, e2, o2⟩ := h2
  obtain ⟨hf, he, hg, hs, ht, evs, hc, hq⟩ := opened_trans o1 o2
  refine ⟨w2, ?_, ?_, ?_, ?_, ?_, ?_, ?_, ?_, ?_⟩
  · rw [e1]; exact e2
  · rw [hf, hwf]
  · rw [he, hwt]
  · apply ht; rw [hwt]
  · have := hg .down; simp only [World.getEnd, hwt] at this; exact this
  · have := hg .up; simp only [World.getEnd, hwt] at this; exact this
  · have := hs .down
    simp only [World.getEnd, hwt] at this; omega
  · have := hs .up
    simp only [World.getEnd, hwt] at this; omega
  · intro ev hev
    rw [hc, calls_def, hwtr] at hev
    simp at hev
    rcases hev with h | h
    · subst h; simp [Event.isClose, Event.isPeerSendComplete]
    · exact hq ev h

/-! ## Facts about the observations -/

@[simp] theorem filter_psc_teardown (err : Option String) :
    (teardown_calls err).filter Event.isPeerSendComplete = [] := rfl
@[simp] theorem filter_close_teardown (err : Option String) :
    (teardown_calls err).filter Event.isClose = [.close .down err, .close .up err] := rfl
@[simp] theorem filter_send_teardown (err : Option String) :
    (teardown_calls err).filter Event.isSend = [] := rfl
@[simp] theorem count_free_teardown (err : Option String) :
    (teardown_calls err).count .free = 1 := by
  simp [teardown_calls, List.count_cons]


/-- Over a whole forward, `send` is called exactly once. -/
theorem send_filter_isSend (w w1 : World) (from_ : EndId) (bufs : List Iovec) (bufcnt : Nat)
    (is_final : Int) (hstep : h2o_tunnel_send w from_ bufs bufcnt is_final = .ok w1) :
    w1.calls.filter Event.isSend =
      w.calls.filter Event.isSend ++ [.send (other from_) bufs bufcnt is_final] := by
  obtain ⟨w2, e2, _, _, _, _, _, h7⟩ := send_spec w from_ bufs bufcnt is_final
  rw [hstep] at e2; cases e2
  rw [h7]
  by_cases hs : (w.getEnd (other from_)).send = .socket_end_send ∧ bufcnt = 0 <;>
  by_cases hq : (w.getEnd from_).on_peer_send_complete = .null <;>
  by_cases hc : ((w.getEnd from_).sending ≠ 1 ∧
      (is_final ≠ 0 ∨ (w.getEnd from_).shutdowned ≠ 0) ∧
      (w.getEnd (other from_)).shutdowned ≠ 0) <;>
    simp [hs, hq, hc, Event.isSend]

/-- A completion that returns was called with `sending == 1`. -/
theorem sending_of_notify_sent_ok (w w1 : World) (e : EndId)
    (hstep : h2o_tunnel_notify_sent w e = .ok w1) : (w.getEnd e).sending = 1 := by
  by_contra hne
  unfold h2o_tunnel_notify_sent at hstep
  rw [if_pos hne] at hstep
  cases hstep

/-! ## Invariant of a live tunnel -/

theorem run_freed (w : World) (ops : List Op) (h : w.freed = true) : run w ops = w := by
  cases ops with
  | nil => rfl
  | cons op rest => unfold run; rw [if_pos h]

theorem break_live (w : World) (err : Option String) (h : live_tunnel w) :
    live_tunnel (h2o_tunnel_break w err) ∨ torn_down (h2o_tunnel_break w err) := by
  obtain ⟨hf, ⟨_, hds, _, hus⟩, hfree, hclose⟩ := h
  obtain ⟨_, h2, h3, _, h5, h6⟩ := break_spec w err
  cases hs : is_sending w
  · right
    rw [hs] at h5 h6
    have hns : ¬ (w.tunnel.down.sending = 1 ∨ w.tunnel.up.sending = 1) := by
      rw [← is_sending_iff, hs]; simp
    refine ⟨by simpa using h5, ?_, ?_, by rw [h2], by rw [h3], ?_, ?_⟩
    · rw [h6]; simp [hfree]
    · rw [h6]; simp [hclose]
    · rw [h2]; show w.tunnel.down.sending = 0; omega
    · rw [h3]; show w.tunnel.up.sending = 0; omega
  · left
    rw [hs] at h5 h6
    refine ⟨by simpa [hf] using h5, ⟨?_, ?_, ?_, ?_⟩, ?_, ?_⟩
    · rw [h2]
    · rw [h2]; exact hds
    · rw [h3]
    · rw [h3]; exact hus
    · rw [h6]; simpa using hfree
    · rw [h6]; simpa using hclose

theorem notify_sent_live (w w1 : World) (e : EndId) (h : live_tunnel w)
    (hstep : h2o_tunnel_notify_sent w e = .ok w1) : live_tunnel w1 ∨ torn_down w1 := by
  obtain ⟨hf, ⟨hdd, hds, hud, hus⟩, hfree, hclose⟩ := h
  have hsend : (w.getEnd e).sending = 1 := sending_of_notify_sent_ok w w1 e hstep
  obtain ⟨w2, e2, g1, g2, _, _, g5, g6⟩ := notify_sent_spec w e hsend
  rw [hstep] at e2
  cases e2
  have hfc : ∀ l : List Event, l.count .free = 0 → l.filter Event.isClose = [] →
      List.count Event.free (l ++ [Event.timeout_unlink, Event.timeout_link] ++
        (if (w.getEnd (other e)).on_peer_send_complete ≠ .null then
          [Event.on_peer_send_complete (other e) e] else [])) = 0 ∧
      List.filter Event.isClose (l ++ [Event.timeout_unlink, Event.timeout_link] ++
        (if (w.getEnd (other e)).on_peer_send_complete ≠ .null then
          [Event.on_peer_send_complete (other e) e] else [])) = [] := by
    intro l h1 h2
    by_cases hp : (w.getEnd (other e)).on_peer_send_complete = .null <;>
      simp [hp, h1, h2, Event.isClose, List.count_cons]
  obtain ⟨c1, c2⟩ := hfc w.calls hfree hclose
  by_cases hc : (w.getEnd (other e)).sending ≠ 1 ∧ w.tunnel.down.shutdowned ≠ 0 ∧
      w.tunnel.up.shutdowned ≠ 0
  · right
    rw [if_pos hc] at g5 g6
    have hdown : w1.tunnel.down.shutdowned = w.tunnel.down.shutdowned ∧
        w1.tunnel.up.shutdowned = w.tunnel.up.shutdowned ∧
        w1.tunnel.down.sending = 0 ∧ w1.tunnel.up.sending = 0 := by
      cases e
      · have a : w1.tunnel.down = _ := g1
        have b : w1.tunnel.up = _ := g2
        have c := hc.1
        simp only [World.getEnd, other_down] at a b c
        rw [a, b]
        exact ⟨rfl, rfl, rfl, by omega⟩
      · have a : w1.tunnel.up = _ := g1
        have b : w1.tunnel.down = _ := g2
        have c := hc.1
        simp only [World.getEnd, other_up] at a b c
        rw [a, b]
        exact ⟨rfl, rfl, by omega, rfl⟩
    obtain ⟨k1, k2, k3, k4⟩ := hdown
    refine ⟨g5, ?_, ?_, by omega, by omega, k3, k4⟩
    · rw [g6, List.count_append, c1]; simp
    · rw [g6, List.filter_append, c2]; simp
  · left
    rw [if_neg hc] at g5 g6
    refine ⟨by rw [g5, hf], ?_, ?_, ?_⟩
    · cases e
      · have a : w1.tunnel.down = _ := g1
        have b : w1.tunnel.up = _ := g2
        simp only [World.getEnd, other_down] at a b
        unfold flagsOK
        rw [a, b]
        exact ⟨hdd, by simp, hud, hus⟩
      · have a : w1.tunnel.up = _ := g1
        have b : w1.tunnel.down = _ := g2
        simp only [World.getEnd, other_up] at a b
        unfold flagsOK
        rw [a, b]
        exact ⟨hdd, hds, hud, by simp⟩
    · rw [g6]; simpa using c1
    · rw [g6]; simpa using c2

theorem send_live (w w1 : World) (from_ : EndId) (bufs : List Iovec) (bufcnt : Nat)
    (is_final : Int) (h : live_tunnel w)
    (hstep : h2o_tunnel_send w from_ bufs bufcnt is_final = .ok w1) :
    live_tunnel w1 ∨ torn_down w1 := by
  obtain ⟨hf, ⟨hdd, hds, hud, hus⟩, hfree, hclose⟩ := h
  obtain ⟨w2, e2, g1, g2, _, _, g5, g6⟩ := send_spec w from_ bufs bufcnt is_final
  rw [hstep] at e2
  cases e2
  have hfl : ∀ x, (w.getEnd x).shutdowned ≤ 1 ∧ (w.getEnd x).sending ≤ 1 := by
    intro x; cases x
    · exact ⟨hdd, hds⟩
    · exact ⟨hud, hus⟩
  by_cases hs : (w.getEnd (other from_)).send = .socket_end_send ∧ bufcnt = 0
  · by_cases hc : (w.getEnd from_).sending ≠ 1 ∧
        (is_final ≠ 0 ∨ (w.getEnd from_).shutdowned ≠ 0) ∧
        (w.getEnd (other from_)).shutdowned ≠ 0
    · right
      rw [if_pos ⟨hs, hc⟩] at g5
      rw [if_pos hs, if_pos hc] at g6
      rw [if_pos hs] at g2
      have hflags : (w1.getEnd from_).shutdowned = 1 ∧ (w1.getEnd from_).sending = 0 ∧
          (w1.getEnd (other from_)).shutdowned = 1 ∧
          (w1.getEnd (other from_)).sending = 0 := by
        rw [g1, g2]
        have a := hfl from_
        have b := hfl (other from_)
        refine ⟨?_, by show (w.getEnd from_).sending = 0; omega,
          by show (w.getEnd (other from_)).shutdowned = 1; omega, rfl⟩
        by_cases hfin : is_final = 0
        · have := hc.2.1
          simp only [hfin, ne_eq, not_true_eq_false, false_or, if_false] at this ⊢
          omega
        · simp [hfin]
      have hcount : w1.calls.count .free = 1 ∧
          (w1.calls.filter Event.isClose).length = 2 := by
        rw [g6]
        constructor
        · by_cases hp : (w.getEnd from_).on_peer_send_complete = .null <;>
            simp [List.count_append, hfree, hp, List.count_cons]
        · by_cases hp : (w.getEnd from_).on_peer_send_complete = .null <;>
            simp [List.filter_append, hclose, hp, Event.isClose]
      cases from_
      · exact ⟨g5, hcount.1, hcount.2, hflags.1, hflags.2.2.1, hflags.2.1, hflags.2.2.2⟩
      · exact ⟨g5, hcount.1, hcount.2, hflags.2.2.1, hflags.1, hflags.2.2.2, hflags.2.1⟩
    · left
      rw [if_neg (fun hh => hc hh.2)] at g5
      rw [if_pos hs, if_neg hc] at g6
      rw [if_pos hs] at g2
      have hflags : (w1.getEnd from_).shutdowned ≤ 1 ∧ (w1.getEnd from_).sending ≤ 1 ∧
          (w1.getEnd (other from_)).shutdowned ≤ 1 ∧
          (w1.getEnd (other from_)).sending ≤ 1 := by
        rw [g1, g2]
        have a := hfl from_
        have b := hfl (other from_)
        refine ⟨?_, a.2, b.1, by simp⟩
        by_cases hfin : is_final = 0
        · simp only [hfin, ne_eq, not_true_eq_false, if_false]; exact a.1
        · simp [hfin]
      have hcount : w1.calls.count .free = 0 ∧ w1.calls.filter Event.isClose = [] := by
        rw [g6]
        constructor
        · by_cases hp : (w.getEnd from_).on_peer_send_complete = .null <;>
            simp [List.count_append, hfree, hp, List.count_cons]
        · by_cases hp : (w.getEnd from_).on_peer_send_complete = .null <;>
            simp [List.filter_append, hclose, hp, Event.isClose]
      cases from_
      · exact ⟨by rw [g5, hf], ⟨hflags.1, hflags.2.1, hflags.2.2.1, hflags.2.2.2⟩,
          hcount.1, hcount.2⟩
      · exact ⟨by rw [g5, hf], ⟨hflags.2.2.1, hflags.2.2.2, hflags.1, hflags.2.1⟩,
          hcount.1, hcount.2⟩
  · left
    rw [if_neg (fun hh => hs hh.1)] at g5
    rw [if_neg hs] at g6 g2
    have hflags : (w1.getEnd from_).shutdowned ≤ 1 ∧ (w1.getEnd from_).sending ≤ 1 ∧
        (w1.getEnd (other from_)).shutdowned ≤ 1 ∧
        (w1.getEnd (other from_)).sending ≤ 1 := by
      rw [g1, g2]
      have a := hfl from_
      have b := hfl (other from_)
      refine ⟨?_, a.2, b.1, by simp⟩
      by_cases hfin : is_final = 0
      · simp only [hfin, ne_eq, not_true_eq_false, if_false]; exact a.1
      · simp [hfin]
    have hcount : w1.calls.count .free = 0 ∧ w1.calls.filter Event.isClose = [] := by
      rw [g6, List.append_nil]
      constructor
      · simp [List.count_append, hfree, List.count_cons]
      · simp [List.filter_append, hclose, Event.isClose]
    cases from_
    · exact ⟨by rw [g5, hf], ⟨hflags.1, hflags.2.1, hflags.2.2.1, hflags.2.2.2⟩,
        hcount.1, hcount.2⟩
    · exact ⟨by rw [g5, hf], ⟨hflags.2.2.1, hflags.2.2.2, hflags.1, hflags.2.1⟩,
        hcount.1, hcount.2⟩

theorem step_live (w w1 : World) (op : Op) (h : live_tunnel w) (hstep : step w op = .ok w1) :
    live_tunnel w1 ∨ torn_down w1 := by
  cases op with
  | send from_ bufs bufcnt is_final => exact send_live w w1 from_ bufs bufcnt is_final h hstep
  | notify_sent e => exact notify_sent_live w w1 e h hstep
  | break_ err =>
    simp only [step, Except.ok.injEq] at hstep
    rw [← hstep]; exact break_live w err h
  | timer =>
    simp only [step, Except.ok.injEq] at hstep
    rw [← hstep]; exact break_live w _ h

theorem run_live (ops : List Op) : ∀ w : World, live_tunnel w →
    live_tunnel (run w ops) ∨ torn_down (run w ops) := by
  induction ops with
  | nil => intro w h; exact Or.inl h
  | cons op rest ih =>
    intro w h
    unfold run
    rw [if_neg (by simp [h.1])]
    cases hstep : step w op with
    | error f => exact Or.inl h
    | ok w1 =>
      dsimp only
      rcases step_live w w1 op h hstep with h1 | h1
      · exact ih w1 h1
      · rw [run_freed w1 rest h1.1]; exact Or.inr h1

theorem establish_live (down up : End) (socks : Nat → Socket) :
    ∃ w0, h2o_tunnel_establish down up socks = .ok w0 ∧ live_tunnel w0 := by
  obtain ⟨w0, e0, hf, _, _, hd, hu, hds, hus, hq⟩ := establish_spec down up socks
  refine ⟨w0, e0, hf, ⟨by rw [hd]; exact Nat.zero_le 1, hds,
    by rw [hu]; exact Nat.zero_le 1, hus⟩, ?_, ?_⟩
  · rw [List.count_eq_zero]
    intro hmem
    exact (hq _ hmem).1 rfl
  · rw [List.filter_eq_nil_iff]
    intro ev hev
    simp [(hq ev hev).2.1]

/-! ## The claims -/

/-- C1: for every tunnel produced by `h2o_tunnel_establish` and every sequence
of forwards, completions, breaks and timer firings applied to it (a sequence
ends when the tunnel has been freed or an assertion fails), the teardown of
`break_now` runs at most once (at most one `free`, and `close` called twice per
`free`, so never outside a teardown), and when it has run both ends have
`shutdowned = 1` and `sending = 0`; `break_now` itself leaves the flags as it
finds them. -/
theorem C1_teardown_at_most_once (down up : End) (socks : Nat → Socket) :
    (∀ w : World, (break_now w).tunnel.down = w.tunnel.down ∧
      (break_now w).tunnel.up = w.tunnel.up) ∧
    ∃ w0, h2o_tunnel_establish down up socks = .ok w0 ∧
      ∀ ops : List Op,
        (run w0 ops).calls.count .free ≤ 1 ∧
        ((run w0 ops).calls.filter Event.isClose).length =
          2 * (run w0 ops).calls.count .free ∧
        ((run w0 ops).calls.count .free = 1 →
          (run w0 ops).tunnel.down.shutdowned = 1 ∧ (run w0 ops).tunnel.up.shutdowned = 1 ∧
          (run w0 ops).tunnel.down.sending = 0 ∧ (run w0 ops).tunnel.up.sending = 0) := by
  obtain ⟨w0, e0, hl⟩ := establish_live down up socks
  refine ⟨fun w => by rw [break_now_tunnel]; exact ⟨rfl, rfl⟩, w0, e0, fun ops => ?_⟩
  rcases run_live ops w0 hl with ⟨_, _, hfree, hclose⟩ | ⟨_, hfree, hclose, a, b, c, d⟩
  · rw [hfree, hclose]; simp
  · rw [hfree, hclose]; exact ⟨le_refl _, rfl, fun _ => ⟨a, b, c, d⟩⟩

/-- Witness for C1: on the tunnel established between the socket ends of
sockets 1 and 2, the end-of-stream of `down` followed by the end-of-stream of
`up` tears the tunnel down once, with both ends shut down and nothing in
flight; the break that follows in the sequence is not delivered. -/
theorem C1_teardown_at_most_once_witness :
    ∃ w0, h2o_tunnel_establish (h2o_tunnel_socket_end_init 1) (h2o_tunnel_socket_end_init 2)
        quiet_socks = .ok w0 ∧
      (run w0 [.send .down [] 0 1, .send .up [] 0 1, .break_ none]).calls.count .free = 1 ∧
      (run w0 [.send .down [] 0 1, .send .up [] 0 1, .break_ none]).tunnel.down.shutdowned
        = 1 ∧
      (run w0 [.send .down [] 0 1, .send .up [] 0 1, .break_ none]).tunnel.up.shutdowned
        = 1 ∧
      (run w0 [.send .down [] 0 1, .send .up [] 0 1, .break_ none]).tunnel.down.sending
        = 0 ∧
      (run w0 [.send .down [] 0 1, .send .up [] 0 1, .break_ none]).tunnel.up.sending
        = 0 := by
  obtain ⟨_, w0, h0, hall⟩ := C1_teardown_at_most_once (h2o_tunnel_socket_end_init 1)
    (h2o_tunnel_socket_end_init 2) quiet_socks
  have hex : ∃ w, h2o_tunnel_establish (h2o_tunnel_socket_end_init 1)
      (h2o_tunnel_socket_end_init 2) quiet_socks = .ok w ∧
      (run w [.send .down [] 0 1, .send .up [] 0 1, .break_ none]).calls.count .free = 1 :=
    ⟨_, rfl, by decide⟩
  obtain ⟨w, hw, hcount⟩ := hex
  rw [h0] at hw
  cases hw
  exact ⟨w0, h0, hcount, (hall _).2.2 hcount⟩

/-- C2: for every tunnel state and every end with `sending = 1`,
`h2o_tunnel_notify_sent` succeeds, clears that end's `sending`, leaves its
`shutdowned` and both flags of the other end as they were, and calls
`on_peer_send_complete` exactly once, on the other end with arguments
(peer, end), when the other end registered one, and not at all otherwise; the
end's own `on_peer_send_complete` is never called. After `h2o_tunnel_establish`,
a forward from `down` that is not final followed by the completion of `up`
(inside the forward when `up` is a socket end given no buffer, by a later
`h2o_tunnel_notify_sent` otherwise) notifies `down` once and frees nothing. -/
theorem C2_notify_sent_notifies_peer :
    (∀ (w : World) (e : EndId), (w.getEnd e).sending = 1 →
      ∃ w1, h2o_tunnel_notify_sent w e = .ok w1 ∧
        (w1.getEnd e).sending = 0 ∧
        (w1.getEnd e).shutdowned = (w.getEnd e).shutdowned ∧
        (w1.getEnd (other e)).sending = (w.getEnd (other e)).sending ∧
        (w1.getEnd (other e)).shutdowned = (w.getEnd (other e)).shutdowned ∧
        w1.calls.filter Event.isPeerSendComplete =
          w.calls.filter Event.isPeerSendComplete ++
            (if (w.getEnd (other e)).on_peer_send_complete ≠ .null then
              [.on_peer_send_complete (other e) e] else [])) ∧
    (∀ (down up : End) (socks : Nat → Socket) (bufs : List Iovec) (bufcnt : Nat),
      down.on_peer_send_complete ≠ .null →
      ∃ w0 w1, h2o_tunnel_establish down up socks = .ok w0 ∧
        h2o_tunnel_send w0 .down bufs bufcnt 0 = .ok w1 ∧
        (if up.send = .socket_end_send ∧ bufcnt = 0 then
          w1.calls.filter Event.isPeerSendComplete = [.on_peer_send_complete .down .up] ∧
          w1.freed = false
        else
          w1.calls.filter Event.isPeerSendComplete = [] ∧
          ∃ w2, h2o_tunnel_notify_sent w1 .up = .ok w2 ∧
            w2.calls.filter Event.isPeerSendComplete = [.on_peer_send_complete .down .up] ∧
            w2.freed = false)) := by
  constructor
  · intro w e h
    obtain ⟨w1, h1, h2, h3, _, _, _, h7⟩ := notify_sent_spec w e h
    refine ⟨w1, h1, by rw [h2], by rw [h2], by rw [h3], by rw [h3], ?_⟩
    rw [h7]
    by_cases hp : (w.getEnd (other e)).on_peer_send_complete = .null <;>
    by_cases hc : ((w.getEnd (other e)).sending ≠ 1 ∧ w.tunnel.down.shutdowned ≠ 0 ∧
        w.tunnel.up.shutdowned ≠ 0) <;>
      simp [hp, hc, Event.isPeerSendComplete]
  · intro down up socks bufs bufcnt hreg
    obtain ⟨w0, e0, hf0, _, _, hd0, hu0, _, _, hq⟩ := establish_spec down up socks
    have hnone : w0.calls.filter Event.isPeerSendComplete = [] := by
      rw [List.filter_eq_nil_iff]
      intro ev hev
      simp [(hq ev hev).2.2]
    have hdsh : w0.tunnel.down.shutdowned = 0 := by rw [hd0]
    have hdp : w0.tunnel.down.on_peer_send_complete = down.on_peer_send_complete := by
      rw [hd0]
    have hus : w0.tunnel.up.send = up.send := by rw [hu0]
    obtain ⟨w1, e1, g1, g2, _, _, g5, g6⟩ := send_spec w0 .down bufs bufcnt 0
    simp only [World.getEnd, other_down, hdsh, hus, hdp] at g1 g2 g5 g6
    refine ⟨w0, w1, e0, e1, ?_⟩
    by_cases hs : up.send = .socket_end_send ∧ bufcnt = 0
    · rw [if_pos hs]
      simp only [hs] at g5 g6
      constructor
      · rw [g6]; simp [hnone, hreg, Event.isPeerSendComplete]
      · rw [g5, hf0]; simp
    · rw [if_neg hs]
      simp only [hs] at g2 g5 g6
      have hsend : (w1.getEnd .up).sending = 1 := by
        show w1.tunnel.up.sending = 1
        rw [g2]; simp
      obtain ⟨w2, e2, _, _, _, _, k6, k7⟩ := notify_sent_spec w1 .up hsend
      have hd1 : w1.tunnel.down.shutdowned = 0 := by rw [g1]; simp
      have hp1 : w1.tunnel.down.on_peer_send_complete = down.on_peer_send_complete := by
        rw [g1]
      simp only [World.getEnd, other_up, hd1, hp1] at k6 k7
      constructor
      · rw [g6]; simp [hnone, Event.isPeerSendComplete]
      · refine ⟨w2, e2, ?_, ?_⟩
        · rw [k7, g6]; simp [hnone, hreg, Event.isPeerSendComplete]
        · rw [k6, g5, hf0]; simp

/-- Witness for C2: socket ends register `on_peer_send_complete`, so after
establishing a tunnel between sockets 1 and 2, forwarding one buffer from
`down` and completing `up`, `down` has been notified once. -/
theorem C2_notify_sent_notifies_peer_witness :
    (up_sending.getEnd .up).sending = 1 ∧
    (h2o_tunnel_socket_end_init 1).on_peer_send_complete ≠ .null ∧
    (∃ w1, h2o_tunnel_notify_sent up_sending .up = .ok w1 ∧ (w1.getEnd .up).sending = 0) ∧
    ∃ w0 w1, h2o_tunnel_establish (h2o_tunnel_socket_end_init 1)
        (h2o_tunnel_socket_end_init 2) quiet_socks = .ok w0 ∧
      h2o_tunnel_send w0 .down [[97, 98, 99]] 1 0 = .ok w1 ∧
      ∃ w2, h2o_tunnel_notify_sent w1 .up = .ok w2 ∧
        w2.calls.filter Event.isPeerSendComplete = [.on_peer_send_complete .down .up] ∧
        w2.freed = false := by
  refine ⟨by decide, by decide, ?_, ?_⟩
  · obtain ⟨w1, h1, h2, _⟩ := C2_notify_sent_notifies_peer.1 up_sending .up (by decide)
    exact ⟨w1, h1, h2⟩
  · obtain ⟨w0, w1, h0, h1, h2⟩ := C2_notify_sent_notifies_peer.2
      (h2o_tunnel_socket_end_init 1) (h2o_tunnel_socket_end_init 2) quiet_socks
      [[97, 98, 99]] 1 (by decide)
    rw [if_neg (by decide)] at h2
    exact ⟨w0, w1, h0, h1, h2.2⟩

/-- C3: for every tunnel state with 0/1 flags and every end with `sending = 1`,
`h2o_tunnel_notify_sent` succeeds and tears the tunnel down (one more `free`,
`down.close` then `up.close` with the recorded error, timer entry unlinked) if
and only if, with that end's flag cleared, the other end has no send in flight
and both ends have `shutdowned = 1`; otherwise no close is called, nothing is
freed and exactly one timer registration is live. -/
theorem C3_notify_sent_teardown_iff (w : World) (e : EndId) (hok : flagsOK w)
    (h : (w.getEnd e).sending = 1) :
    ∃ w1, h2o_tunnel_notify_sent w e = .ok w1 ∧
      (((w.getEnd (other e)).sending ≠ 1 ∧ w.tunnel.down.shutdowned = 1 ∧
          w.tunnel.up.shutdowned = 1) →
        is_sending w1 = false ∧
        w1.freed = true ∧ w1.calls.count .free = w.calls.count .free + 1 ∧
        w1.calls.filter Event.isClose = w.calls.filter Event.isClose ++
          [.close .down w.tunnel.err, .close .up w.tunnel.err] ∧
        w1.tunnel.timeout_entry = 0) ∧
      (¬ ((w.getEnd (other e)).sending ≠ 1 ∧ w.tunnel.down.shutdowned = 1 ∧
          w.tunnel.up.shutdowned = 1) →
        w1.freed = w.freed ∧ w1.calls.count .free = w.calls.count .free ∧
        w1.calls.filter Event.isClose = w.calls.filter Event.isClose ∧
        w1.tunnel.timeout_entry = 1) := by
  obtain ⟨hd, _, hu, _⟩ := hok
  have hcond : ((w.getEnd (other e)).sending ≠ 1 ∧ w.tunnel.down.shutdowned ≠ 0 ∧
        w.tunnel.up.shutdowned ≠ 0) ↔
      ((w.getEnd (other e)).sending ≠ 1 ∧ w.tunnel.down.shutdowned = 1 ∧
        w.tunnel.up.shutdowned = 1) := by
    constructor
    · rintro ⟨a, b, c⟩; exact ⟨a, by omega, by omega⟩
    · rintro ⟨a, b, c⟩; exact ⟨a, by omega, by omega⟩
  obtain ⟨w1, h1, h2, h3, _, h5, h6, h7⟩ := notify_sent_spec w e h
  simp only [hcond] at h5 h6 h7
  refine ⟨w1, h1, fun hc => ?_, fun hc => ?_⟩
  · rw [if_pos hc] at h5 h6 h7
    refine ⟨?_, h6, ?_, ?_, h5⟩
    · have a : (w1.getEnd e).sending = 0 := by rw [h2]
      have b : (w1.getEnd (other e)).sending ≠ 1 := by rw [h3]; exact hc.1
      cases e <;> simp [World.getEnd] at a b <;> simp [is_sending, a, b]
    · rw [h7]
      by_cases hp : (w.getEnd (other e)).on_peer_send_complete = .null <;>
        simp [hp, List.count_cons]
    · rw [h7]
      by_cases hp : (w.getEnd (other e)).on_peer_send_complete = .null <;>
        simp [hp, Event.isClose]
  · rw [if_neg hc] at h5 h6 h7
    refine ⟨h6, ?_, ?_, h5⟩
    · rw [h7]
      by_cases hp : (w.getEnd (other e)).on_peer_send_complete = .null <;>
        simp [hp, List.count_cons]
    · rw [h7]
      by_cases hp : (w.getEnd (other e)).on_peer_send_complete = .null <;>
        simp [hp, Event.isClose]

/-- Witness for C3: in `up_sending` the completion for `up` succeeds and, `down`
not being shut down, tears nothing down and leaves the timer armed. -/
theorem C3_notify_sent_teardown_iff_witness :
    flagsOK up_sending ∧ (up_sending.getEnd .up).sending = 1 ∧
      ∃ w1, h2o_tunnel_notify_sent up_sending .up = .ok w1 ∧
        w1.freed = false ∧ w1.tunnel.timeout_entry = 1 := by
  refine ⟨by decide, by decide, ?_⟩
  obtain ⟨w1, h1, _, h3⟩ := C3_notify_sent_teardown_iff up_sending .up (by decide) (by decide)
  have h4 := h3 (by decide)
  exact ⟨w1, h1, h4.1, h4.2.2.2⟩

/-- C4: `h2o_tunnel_notify_sent` for an end whose `sending` flag is not 1 (in
particular 0) fails its assertion and returns no new state, so a sequence of
entries stops there with the world exactly as it was: timer not re-armed, no
flag modified, no call made; and the call succeeds whenever `sending = 1`. -/
theorem C4_notify_sent_assertion (w : World) (e : EndId) :
    ((w.getEnd e).sending ≠ 1 →
      h2o_tunnel_notify_sent w e = .error .assertion_failed ∧
      ∀ rest, run w (.notify_sent e :: rest) = w) ∧
    ((w.getEnd e).sending = 1 → ∃ w1, h2o_tunnel_notify_sent w e = .ok w1) := by
  constructor
  · intro h
    have h1 : h2o_tunnel_notify_sent w e = .error .assertion_failed := by
      unfold h2o_tunnel_notify_sent
      rw [if_pos h]
    refine ⟨h1, fun rest => ?_⟩
    unfold run
    split
    · rfl
    · simp only [step, h1]
  · intro h
    obtain ⟨w1, h1, _⟩ := notify_sent_spec w e h
    exact ⟨w1, h1⟩

/-- Witness for C4: in `up_sending` the completion for `down` (flag 0) fails the
assertion and changes nothing, the completion for `up` (flag 1) succeeds. -/
theorem C4_notify_sent_assertion_witness :
    (up_sending.getEnd .down).sending ≠ 1 ∧ (up_sending.getEnd .up).sending = 1 ∧
    h2o_tunnel_notify_sent up_sending .down = .error .assertion_failed ∧
    run up_sending [.notify_sent .down] = up_sending ∧
    ∃ w1, h2o_tunnel_notify_sent up_sending .up = .ok w1 :=
  ⟨by decide, by decide,
    ((C4_notify_sent_assertion up_sending .down).1 (by decide)).1,
    ((C4_notify_sent_assertion up_sending .down).1 (by decide)).2 [],
    (C4_notify_sent_assertion up_sending .up).2 (by decide)⟩

/-- C5: for every tunnel state, end `from`, buffers and `is_final`,
`h2o_tunnel_send` calls `send` of the other end in a state `pre` in which
`from.shutdowned` is 1 when `is_final` is non-zero and unchanged otherwise,
`to.sending` is 1, and `from.sending`, `to.shutdowned` and the error slot are
unchanged and no `send` has been called yet; the call returns, and over the
whole call `send` is called exactly once, on `to`, with the same `bufs`,
`bufcnt` and `is_final`. -/
theorem C5_send_forwards_to_other (w : World) (from_ : EndId) (bufs : List Iovec)
    (bufcnt : Nat) (is_final : Int) :
    ∃ pre w1,
      h2o_tunnel_send w from_ bufs bufcnt is_final =
        invoke_send pre (other from_) bufs bufcnt is_final ∧
      h2o_tunnel_send w from_ bufs bufcnt is_final = .ok w1 ∧
      (pre.getEnd from_).shutdowned =
        (if is_final ≠ 0 then 1 else (w.getEnd from_).shutdowned) ∧
      (pre.getEnd from_).sending = (w.getEnd from_).sending ∧
      (pre.getEnd (other from_)).sending = 1 ∧
      (pre.getEnd (other from_)).shutdowned = (w.getEnd (other from_)).shutdowned ∧
      pre.tunnel.err = w.tunnel.err ∧
      pre.calls.filter Event.isSend = w.calls.filter Event.isSend ∧
      w1.calls.filter Event.isSend =
        w.calls.filter Event.isSend ++ [.send (other from_) bufs bufcnt is_final] := by
  obtain ⟨pre, hp, p1, p2, p3, _, _, _, p7⟩ := send_pre w from_ bufs bufcnt is_final
  obtain ⟨w1, h1, _⟩ := send_spec w from_ bufs bufcnt is_final
  refine ⟨pre, w1, hp, h1, by rw [p1], by rw [p1], by rw [p2], by rw [p2], p3, ?_,
    send_filter_isSend w w1 from_ bufs bufcnt is_final h1⟩
  rw [p7]; simp [Event.isSend]

/-- Counterexample to C6 as stated: on the tunnel established between the
socket ends of sockets 1 and 2, a forward from `down` marks `up` sending, and a
second forward from `down` while that send is still in flight calls `up.send`
a second time and leaves the flag at 1. -/
theorem C6_second_send_issued :
    ∃ w0 w1 w2,
      h2o_tunnel_establish (h2o_tunnel_socket_end_init 1) (h2o_tunnel_socket_end_init 2)
        quiet_socks = .ok w0 ∧
      h2o_tunnel_send w0 .down [[97]] 1 0 = .ok w1 ∧
      w1.tunnel.up.sending = 1 ∧
      h2o_tunnel_send w1 .down [[98]] 1 0 = .ok w2 ∧
      w2.tunnel.up.sending = 1 ∧
      w2.calls.filter Event.isSend = [.send .up [[97]] 1 0, .send .up [[98]] 1 0] :=
  ⟨_, _, _, rfl, rfl, rfl, rfl, rfl, rfl⟩

/-- C6, amended: `h2o_tunnel_send` does not look at the target's `sending`
flag. After a forward that leaves its send in flight (one with buffers), a
second forward from the same end finds the target's flag at 1, and still calls
the target's `send` a second time. -/
theorem C6_send_ignores_in_flight (w : World) (from_ : EndId)
    (bufs1 bufs2 : List Iovec) (bufcnt1 bufcnt2 : Nat) (is_final1 is_final2 : Int)
    (h : bufcnt1 ≠ 0) :
    ∃ w1 w2,
      h2o_tunnel_send w from_ bufs1 bufcnt1 is_final1 = .ok w1 ∧
      (w1.getEnd (other from_)).sending = 1 ∧
      h2o_tunnel_send w1 from_ bufs2 bufcnt2 is_final2 = .ok w2 ∧
      w2.calls.filter Event.isSend =
        w.calls.filter Event.isSend ++
          [.send (other from_) bufs1 bufcnt1 is_final1,
           .send (other from_) bufs2 bufcnt2 is_final2] := by
  obtain ⟨w1, h1, _, g2, _⟩ := send_spec w from_ bufs1 bufcnt1 is_final1
  obtain ⟨w2, h2, _⟩ := send_spec w1 from_ bufs2 bufcnt2 is_final2
  refine ⟨w1, w2, h1, ?_, h2, ?_⟩
  · rw [g2]; simp [h]
  · rw [send_filter_isSend w1 w2 from_ bufs2 bufcnt2 is_final2 h2,
      send_filter_isSend w w1 from_ bufs1 bufcnt1 is_final1 h1]
    simp

/-- Witness for C6, amended: two forwards of one buffer from `down` on the
tunnel `up_sending` both call `up.send`. -/
theorem C6_send_ignores_in_flight_witness :
    (1 : Nat) ≠ 0 ∧
    ∃ w1 w2, h2o_tunnel_send up_sending .down [[97]] 1 0 = .ok w1 ∧
      (w1.getEnd (other .down)).sending = 1 ∧
      h2o_tunnel_send w1 .down [[98]] 1 0 = .ok w2 ∧
      w2.calls.filter Event.isSend =
        up_sending.calls.filter Event.isSend ++
          [.send (other .down) [[97]] 1 0, .send (other .down) [[98]] 1 0] :=
  ⟨by decide, C6_send_ignores_in_flight up_sending .down [[97]] [[98]] 1 1 0 0 (by decide)⟩

/-- Counterexample to C7 as stated: on the tunnel established between the
socket ends of sockets 1 and 2, `down` forwards one buffer, so a send to `up` is
in flight; a break with reason "r1" is deferred and records "r1"; a second
break with reason "r2" overwrites it. -/
theorem C7_second_break_overwrites :
    ∃ w0 w1,
      h2o_tunnel_establish (h2o_tunnel_socket_end_init 1) (h2o_tunnel_socket_end_init 2)
        quiet_socks = .ok w0 ∧
      h2o_tunnel_send w0 .down [[97]] 1 0 = .ok w1 ∧
      (h2o_tunnel_break w1 (some "r1")).tunnel.err = some "r1" ∧
      (h2o_tunnel_break w1 (some "r1")).freed = false ∧
      (h2o_tunnel_break (h2o_tunnel_break w1 (some "r1")) (some "r2")).tunnel.err =
        some "r2" ∧
      (h2o_tunnel_break (h2o_tunnel_break w1 (some "r1")) (some "r2")).tunnel.err ≠
        some "r1" :=
  ⟨_, _, rfl, rfl, rfl, rfl, rfl, by decide⟩

/-- C7, amended: `h2o_tunnel_break` stores its reason in the error slot
whatever the slot held, so after a second break the slot holds the second
reason; a forward and a completion leave the slot unchanged. -/
theorem C7_break_overwrites_error :
    (∀ (w : World) (r1 r2 : Option String),
      (h2o_tunnel_break (h2o_tunnel_break w r1) r2).tunnel.err = r2) ∧
    (∀ (w w1 : World) (from_ : EndId) (bufs : List Iovec) (bufcnt : Nat) (is_final : Int),
      h2o_tunnel_send w from_ bufs bufcnt is_final = .ok w1 → w1.tunnel.err = w.tunnel.err) ∧
    (∀ (w w1 : World) (e : EndId),
      h2o_tunnel_notify_sent w e = .ok w1 → w1.tunnel.err = w.tunnel.err) := by
  refine ⟨fun w r1 r2 => (break_spec _ r2).1, ?_, ?_⟩
  · intro w w1 from_ bufs bufcnt is_final hstep
    obtain ⟨w2, e2, _, _, h4, _⟩ := send_spec w from_ bufs bufcnt is_final
    rw [hstep] at e2; cases e2
    exact h4
  · intro w w1 e hstep
    have hsend : (w.getEnd e).sending = 1 := sending_of_notify_sent_ok w w1 e hstep
    obtain ⟨w2, e2, _, _, h4, _⟩ := notify_sent_spec w e hsend
    rw [hstep] at e2; cases e2
    exact h4

/-- Witness for C7, amended: the completion of `up` in `up_sending` succeeds and
keeps the empty error slot; two breaks leave the second reason. -/
theorem C7_break_overwrites_error_witness :
    (h2o_tunnel_break (h2o_tunnel_break up_sending (some "r1")) (some "r2")).tunnel.err =
      some "r2" ∧
    ∃ w1, h2o_tunnel_notify_sent up_sending .up = .ok w1 ∧
      w1.tunnel.err = up_sending.tunnel.err := by
  refine ⟨C7_break_overwrites_error.1 up_sending (some "r1") (some "r2"), ?_⟩
  obtain ⟨w1, h1, _⟩ := notify_sent_spec up_sending .up (by decide)
  exact ⟨w1, h1, C7_break_overwrites_error.2.2 up_sending w1 .up h1⟩

/-- C8: for every tunnel state, `h2o_tunnel_break` stores the reason, sets
`shutdowned = 1` on both ends whatever it was, and leaves both `sending` flags
unchanged. If neither end has `sending = 1` it tears down within the call: the
timer entry is unlinked, then `down.close` and `up.close` are each called once
with the recorded error, then the tunnel is freed. If some end has a send in
flight it makes no call at all: no close, timer not cancelled, nothing freed. -/
theorem C8_break_marks_and_tears_down (w : World) (err : Option String) :
    (h2o_tunnel_break w err).tunnel.err = err ∧
    (h2o_tunnel_break w err).tunnel.down.shutdowned = 1 ∧
    (h2o_tunnel_break w err).tunnel.up.shutdowned = 1 ∧
    (h2o_tunnel_break w err).tunnel.down.sending = w.tunnel.down.sending ∧
    (h2o_tunnel_break w err).tunnel.up.sending = w.tunnel.up.sending ∧
    (if w.tunnel.down.sending ≠ 1 ∧ w.tunnel.up.sending ≠ 1 then
      (h2o_tunnel_break w err).freed = true ∧
      (h2o_tunnel_break w err).tunnel.timeout_entry = 0 ∧
      (h2o_tunnel_break w err).calls =
        w.calls ++ [.timeout_unlink, .close .down err, .close .up err, .free]
    else
      (h2o_tunnel_break w err).freed = w.freed ∧
      (h2o_tunnel_break w err).tunnel.timeout_entry = w.tunnel.timeout_entry ∧
      (h2o_tunnel_break w err).trace = w.trace) := by
  obtain ⟨h1, h2, h3, h4, h5, h6⟩ := break_spec w err
  refine ⟨h1, by rw [h2], by rw [h3], by rw [h2], by rw [h3], ?_⟩
  by_cases hs : w.tunnel.down.sending ≠ 1 ∧ w.tunnel.up.sending ≠ 1
  · have hi : is_sending w = false := by
      simp [is_sending, hs.1, hs.2]
    rw [if_pos hs]
    rw [hi] at h4 h5 h6
    exact ⟨by simpa using h5, by simpa using h4, by simpa [teardown_calls] using h6⟩
  · have hi : is_sending w = true := by
      rw [is_sending_iff]
      by_cases hd : w.tunnel.down.sending = 1
      · exact Or.inl hd
      · by_cases hu : w.tunnel.up.sending = 1
        · exact Or.inr hu
        · exact absurd ⟨hd, hu⟩ hs
    rw [if_neg hs]
    rw [hi] at h4 h5
    refine ⟨by simpa using h5, by simpa using h4, ?_⟩
    have hi2 : is_sending
        (World.setEnd
          (World.setEnd { w with tunnel := { w.tunnel with err := err } } .down
            { w.tunnel.down with shutdowned := 1 }) .up
          { (World.setEnd { w with tunnel := { w.tunnel with err := err } } .down
              { w.tunnel.down with shutdowned := 1 }).tunnel.up with shutdowned := 1 }) =
        true := hi
    unfold h2o_tunnel_break
    simp only [hi2]
    rfl

/-- C9: when `h2o_tunnel_break` is called while an end `e` has a send in
flight, that call closes nothing. If the other end has a send in flight too,
the completion for `e` closes nothing either and the completion for the other
end that follows calls `down.close` and `up.close`; if only `e` has a send in
flight, the completion for `e` calls both. -/
theorem C9_break_defers_close (w : World) (err : Option String) (e : EndId)
    (h : (w.getEnd e).sending = 1) :
    (h2o_tunnel_break w err).calls = w.calls ∧
    (h2o_tunnel_break w err).freed = w.freed ∧
    ∃ w1, h2o_tunnel_notify_sent (h2o_tunnel_break w err) e = .ok w1 ∧
      ((w.getEnd (other e)).sending = 1 →
        w1.calls.filter Event.isClose = w.calls.filter Event.isClose ∧
        w1.freed = w.freed ∧
        ∃ w2, h2o_tunnel_notify_sent w1 (other e) = .ok w2 ∧
          w2.calls.filter Event.isClose =
            w.calls.filter Event.isClose ++ [.close .down err, .close .up err] ∧
          w2.freed = true) ∧
      ((w.getEnd (other e)).sending ≠ 1 →
        w1.calls.filter Event.isClose =
          w.calls.filter Event.isClose ++ [.close .down err, .close .up err] ∧
        w1.freed = true) := by
  obtain ⟨b1, b2, b3, _, b5, b6⟩ := break_spec w err
  have hi : is_sending w = true := by
    rw [is_sending_iff]
    cases e
    · exact Or.inl h
    · exact Or.inr h
  rw [hi] at b5 b6
  simp only [if_true, List.append_nil] at b5 b6
  have hg : ∀ x, ((h2o_tunnel_break w err).getEnd x).sending = (w.getEnd x).sending ∧
      ((h2o_tunnel_break w err).getEnd x).on_peer_send_complete =
        (w.getEnd x).on_peer_send_complete := by
    intro x
    cases x
    · show (h2o_tunnel_break w err).tunnel.down.sending = w.tunnel.down.sending ∧
        (h2o_tunnel_break w err).tunnel.down.on_peer_send_complete =
          w.tunnel.down.on_peer_send_complete
      rw [b2]; exact ⟨rfl, rfl⟩
    · show (h2o_tunnel_break w err).tunnel.up.sending = w.tunnel.up.sending ∧
        (h2o_tunnel_break w err).tunnel.up.on_peer_send_complete =
          w.tunnel.up.on_peer_send_complete
      rw [b3]; exact ⟨rfl, rfl⟩
  have hd : (h2o_tunnel_break w err).tunnel.down.shutdowned = 1 := by rw [b2]
  have hu : (h2o_tunnel_break w err).tunnel.up.shutdowned = 1 := by rw [b3]
  obtain ⟨w1, e1, g1, g2, g3, _, g5, g6⟩ :=
    notify_sent_spec (h2o_tunnel_break w err) e (by rw [(hg e).1]; exact h)
  simp only [(hg (other e)).1, (hg (other e)).2, hd, hu, b1, b5, b6, ne_eq, one_ne_zero,
    not_false_eq_true, and_true] at g5 g6
  refine ⟨b6, b5, w1, e1, fun ho => ?_, fun ho => ?_⟩
  · simp only [ho, not_true_eq_false, if_false, List.append_nil] at g5 g6
    have hclose1 : w1.calls.filter Event.isClose = w.calls.filter Event.isClose := by
      rw [g6]
      by_cases hp : (w.getEnd (other e)).on_peer_send_complete = .null <;>
        simp [hp, Event.isClose]
    refine ⟨hclose1, g5, ?_⟩
    have hs1 : (w1.getEnd (other e)).sending = 1 := by
      rw [g2, (hg (other e)).1]; exact ho
    obtain ⟨w2, e2, _, _, _, _, k5, k6⟩ := notify_sent_spec w1 (other e) hs1
    have hd1 : w1.tunnel.down.shutdowned = 1 ∧ w1.tunnel.up.shutdowned = 1 := by
      cases e
      · have a : w1.tunnel.down = _ := g1
        have b : w1.tunnel.up = _ := g2
        rw [a, b]
        exact ⟨hd, hu⟩
      · have a : w1.tunnel.up = _ := g1
        have b : w1.tunnel.down = _ := g2
        rw [a, b]
        exact ⟨hd, hu⟩
    have hs0 : (w1.getEnd e).sending = 0 := by rw [g1]
    simp only [other_other, hs0, hd1.1, hd1.2, g3, b1, ne_eq, zero_ne_one, one_ne_zero,
      not_false_eq_true, and_self, if_true] at k5 k6
    refine ⟨w2, e2, ?_, k5⟩
    rw [k6, List.filter_append, List.filter_append, List.filter_append, hclose1]
    by_cases hp : (w1.getEnd e).on_peer_send_complete = .null <;>
      simp [hp, Event.isClose]
  · simp only [ho, not_false_eq_true, if_true] at g5 g6
    refine ⟨?_, g5⟩
    rw [g6]
    by_cases hp : (w.getEnd (other e)).on_peer_send_complete = .null <;>
      simp [hp, Event.isClose]

/-- Witness for C9: with sends to both ends in flight (`both_sending`), a break
closes nothing, the completion for `down` closes nothing, and the completion
for `up` closes both ends. -/
theorem C9_break_defers_close_witness :
    (both_sending.getEnd .down).sending = 1 ∧
    (h2o_tunnel_break both_sending (some "reset")).calls = both_sending.calls ∧
    ∃ w1, h2o_tunnel_notify_sent (h2o_tunnel_break both_sending (some "reset")) .down =
        .ok w1 ∧
      w1.calls.filter Event.isClose = [] ∧
      ∃ w2, h2o_tunnel_notify_sent w1 .up = .ok w2 ∧
        w2.calls.filter Event.isClose =
          [.close .down (some "reset"), .close .up (some "reset")] := by
  obtain ⟨h1, _, w1, h3, h4, _⟩ :=
    C9_break_defers_close both_sending (some "reset") .down (by decide)
  obtain ⟨h5, _, w2, h6, h7, _⟩ := h4 (by decide)
  exact ⟨by decide, h1, w1, h3, h5, w2, h6, h7⟩

/-- Counterexample to C10 as stated: on the tunnel established between the
socket ends of sockets 1 and 2, with no send in flight, `down` forwards
end-of-stream; `up.send` is called with no buffer and `is_final = 1` and
completes inside the call; afterwards `down.shutdowned` is 1 but
`up.shutdowned` is still 0. -/
theorem C10_peer_flag_not_set :
    ∃ w0 w1,
      h2o_tunnel_establish (h2o_tunnel_socket_end_init 1) (h2o_tunnel_socket_end_init 2)
        quiet_socks = .ok w0 ∧
      is_sending w0 = false ∧
      h2o_tunnel_send w0 .down [] 0 1 = .ok w1 ∧
      w1.calls.filter Event.isSend = [.send .up [] 0 1] ∧
      w1.tunnel.up.sending = 0 ∧
      w1.tunnel.down.shutdowned = 1 ∧
      w1.tunnel.up.shutdowned = 0 ∧
      ¬ (w1.tunnel.down.shutdowned = 1 ∧ w1.tunnel.up.shutdowned = 1) :=
  ⟨_, _, rfl, rfl, rfl, rfl, rfl, rfl, rfl, by decide⟩

/-- C10, amended: when an end A forwards end-of-stream (no buffer,
`is_final = 1`), the `send` of the other end B is called once, with no buffer,
count 0 and `is_final = 1`; A's `shutdowned` becomes 1 and B's keeps the value
it had, both when the call returns and after a later completion for B. -/
theorem C10_half_close_marks_sender_only (w : World) (a : EndId) :
    ∃ w1, h2o_tunnel_send w a [] 0 1 = .ok w1 ∧
      w1.calls.filter Event.isSend = w.calls.filter Event.isSend ++ [.send (other a) [] 0 1] ∧
      (w1.getEnd a).shutdowned = 1 ∧
      (w1.getEnd (other a)).shutdowned = (w.getEnd (other a)).shutdowned ∧
      ∀ w2, h2o_tunnel_notify_sent w1 (other a) = .ok w2 →
        (w2.getEnd a).shutdowned = 1 ∧
        (w2.getEnd (other a)).shutdowned = (w.getEnd (other a)).shutdowned := by
  obtain ⟨w1, h1, g1, g2, _⟩ := send_spec w a [] 0 1
  have ha : (w1.getEnd a).shutdowned = 1 := by rw [g1]; simp
  have hb : (w1.getEnd (other a)).shutdowned = (w.getEnd (other a)).shutdowned := by rw [g2]
  refine ⟨w1, h1, send_filter_isSend w w1 a [] 0 1 h1, ha, hb, fun w2 hstep => ?_⟩
  obtain ⟨w3, e3, k1, k2, _⟩ :=
    notify_sent_spec w1 (other a) (sending_of_notify_sent_ok w1 w2 (other a) hstep)
  rw [hstep] at e3; cases e3
  rw [other_other] at k2
  exact ⟨by rw [k2]; exact ha, by rw [k1]; exact hb⟩

/-- Witness for C10, amended: on `idle_tunnel` the end-of-stream of `down`
reaches `up.send`, and after the completion for `up` only `down` is shut
down. -/
theorem C10_half_close_marks_sender_only_witness :
    ∃ w1 w2, h2o_tunnel_send idle_tunnel .down [] 0 1 = .ok w1 ∧
      h2o_tunnel_notify_sent w1 (other .down) = .ok w2 ∧
      (w2.getEnd .down).shutdowned = 1 ∧
      (w2.getEnd (other .down)).shutdowned = (idle_tunnel.getEnd (other .down)).shutdowned ∧
      (idle_tunnel.getEnd (other .down)).shutdowned = 0 := by
  obtain ⟨w1, h1, _, _, _, h5⟩ := C10_half_close_marks_sender_only idle_tunnel .down
  have hs : (w1.getEnd (other .down)).sending = 1 := by
    obtain ⟨wa, ha, _, g2, _⟩ := send_spec idle_tunnel .down [] 0 1
    rw [h1] at ha; cases ha
    rw [g2]; decide
  obtain ⟨w2, h2, _⟩ := notify_sent_spec w1 (other .down) hs
  exact ⟨w1, w2, h1, h2, (h5 w2 h2).1, (h5 w2 h2).2, by decide⟩

/-- Counterexample to C11 as stated: on the tunnel established between two
foreign ends, with no send in flight, `down` forwards end-of-stream and the
final send to `up` completes; the completion frees nothing, calls no close and
leaves one timer registration live, because `up.shutdowned` is still 0. -/
theorem C11_no_teardown_after_half_close :
    ∃ w0 w1 w2,
      h2o_tunnel_establish foreign_end foreign_end quiet_socks = .ok w0 ∧
      is_sending w0 = false ∧
      h2o_tunnel_send w0 .down [] 0 1 = .ok w1 ∧
      h2o_tunnel_notify_sent w1 .up = .ok w2 ∧
      w2.freed = false ∧
      w2.calls.filter Event.isClose = [] ∧
      w2.tunnel.timeout_entry = 1 ∧
      w2.tunnel.up.shutdowned = 0 :=
  ⟨_, _, _, rfl, rfl, rfl, rfl, rfl, rfl, rfl, rfl⟩

/-- C11, amended: on a tunnel in which `down` has no send in flight, when
`down` forwards end-of-stream and the final send to `up` completes (inside the
forward for a socket end, by `h2o_tunnel_notify_sent` otherwise), that
completion tears down exactly when `up.shutdowned` was already non-zero. On a
freshly established tunnel it is 0: nothing is closed or freed and one timer
registration stays live. -/
theorem C11_half_close_completion (w : World) (hd : w.tunnel.down.sending ≠ 1) :
    ∃ w1 wf, h2o_tunnel_send w .down [] 0 1 = .ok w1 ∧
      (if w.tunnel.up.send = .socket_end_send then wf = w1
        else h2o_tunnel_notify_sent w1 .up = .ok wf) ∧
      wf.calls.filter Event.isClose = w.calls.filter Event.isClose ++
        (if w.tunnel.up.shutdowned ≠ 0 then
          [.close .down w.tunnel.err, .close .up w.tunnel.err] else []) ∧
      wf.calls.count .free = w.calls.count .free +
        (if w.tunnel.up.shutdowned ≠ 0 then 1 else 0) ∧
      wf.freed = (if w.tunnel.up.shutdowned ≠ 0 then true else w.freed) ∧
      wf.tunnel.timeout_entry = (if w.tunnel.up.shutdowned ≠ 0 then 0 else 1) := by
  obtain ⟨w1, h1, g1, g2, g3, g4, g5, g6⟩ := send_spec w .down [] 0 1
  simp only [World.getEnd, other_down] at g1 g2 g4 g5 g6
  by_cases hs : w.tunnel.up.send = .socket_end_send
  · refine ⟨w1, w1, h1, by rw [if_pos hs], ?_, ?_, ?_, ?_⟩
    · rw [g6]
      by_cases hp : w.tunnel.down.on_peer_send_complete = .null <;>
      by_cases hu : w.tunnel.up.shutdowned = 0 <;>
        simp [hs, hd, hp, hu, Event.isClose]
    · rw [g6]
      by_cases hp : w.tunnel.down.on_peer_send_complete = .null <;>
      by_cases hu : w.tunnel.up.shutdowned = 0 <;>
        simp [hs, hd, hp, hu, List.count_cons]
    · rw [g5]
      by_cases hu : w.tunnel.up.shutdowned = 0 <;> simp [hs, hd, hu]
    · rw [g4]
      by_cases hu : w.tunnel.up.shutdowned = 0 <;> simp [hs, hd, hu]
  · have hsend : (w1.getEnd .up).sending = 1 := by
      show w1.tunnel.up.sending = 1
      rw [g2]; simp [hs]
    obtain ⟨w2, h2, _, _, _, k4, k5, k6⟩ := notify_sent_spec w1 .up hsend
    have hd1 : w1.tunnel.down.sending = w.tunnel.down.sending ∧
        w1.tunnel.down.shutdowned = 1 ∧
        w1.tunnel.down.on_peer_send_complete = w.tunnel.down.on_peer_send_complete := by
      rw [g1]; simp
    have hu1 : w1.tunnel.up.shutdowned = w.tunnel.up.shutdowned := by rw [g2]
    simp only [World.getEnd, other_up, hd1.1, hd1.2.1, hd1.2.2, hu1, g3] at k4 k5 k6
    refine ⟨w1, w2, h1, by rw [if_neg hs]; exact h2, ?_, ?_, ?_, ?_⟩
    · rw [k6, g6]
      by_cases hp : w.tunnel.down.on_peer_send_complete = .null <;>
      by_cases hu : w.tunnel.up.shutdowned = 0 <;>
        simp [hs, hd, hp, hu, Event.isClose]
    · rw [k6, g6]
      by_cases hp : w.tunnel.down.on_peer_send_complete = .null <;>
      by_cases hu : w.tunnel.up.shutdowned = 0 <;>
        simp [hs, hd, hp, hu, List.count_cons]
    · rw [k5, g5]
      by_cases hu : w.tunnel.up.shutdowned = 0 <;> simp [hs, hd, hu]
    · rw [k4]
      by_cases hu : w.tunnel.up.shutdowned = 0 <;> simp [hd, hu]

/-- Witness for C11, amended: on `idle_tunnel` the completion of the final send
to `up` calls no close and leaves the timer armed. -/
theorem C11_half_close_completion_witness :
    idle_tunnel.tunnel.down.sending ≠ 1 ∧
    ∃ w1 wf, h2o_tunnel_send idle_tunnel .down [] 0 1 = .ok w1 ∧
      h2o_tunnel_notify_sent w1 .up = .ok wf ∧
      wf.calls.filter Event.isClose = [] ∧ wf.freed = false ∧
      wf.tunnel.timeout_entry = 1 := by
  refine ⟨by decide, ?_⟩
  obtain ⟨w1, wf, h1, h2, h3, _, h5, h6⟩ := C11_half_close_completion idle_tunnel (by decide)
  rw [if_neg (by decide)] at h2
  exact ⟨w1, wf, h1, h2, h3, h5, h6⟩

theorem is_sending_false_of (w : World) (hd : w.tunnel.down.sending ≠ 1)
    (hu : w.tunnel.up.sending ≠ 1) : is_sending w = false := by
  simp [is_sending, hd, hu]

/-- Counterexample to C12 as stated: on the tunnel established between the
socket ends of sockets 1 and 2, `down` forwards one buffer, a break with reason
"reset" is deferred because that send is in flight and records the reason, and
a forward from `up` that arrives next still calls `down.send`. -/
theorem C12_send_after_break :
    ∃ w0 w1 w3,
      h2o_tunnel_establish (h2o_tunnel_socket_end_init 1) (h2o_tunnel_socket_end_init 2)
        quiet_socks = .ok w0 ∧
      h2o_tunnel_send w0 .down [[97]] 1 0 = .ok w1 ∧
      (h2o_tunnel_break w1 (some "reset")).tunnel.err = some "reset" ∧
      (h2o_tunnel_break w1 (some "reset")).freed = false ∧
      h2o_tunnel_send (h2o_tunnel_break w1 (some "reset")) .up [[98]] 1 0 = .ok w3 ∧
      w3.tunnel.err = some "reset" ∧
      w3.calls.filter Event.isSend = [.send .up [[97]] 1 0, .send .down [[98]] 1 0] :=
  ⟨_, _, _, rfl, rfl, rfl, rfl, rfl, rfl, rfl⟩

/-- C12, amended: once a break is recorded and deferred, `h2o_tunnel_break`,
the timer callback and `h2o_tunnel_notify_sent` call no `send`; but
`h2o_tunnel_send` does not look at the error slot, and a forward that arrives
before the in-flight sends have drained still calls the target's `send`. -/
theorem C12_send_ignores_error :
    (∀ (w : World) (err : Option String),
      (h2o_tunnel_break w err).calls.filter Event.isSend = w.calls.filter Event.isSend ∧
      (on_timeout w).calls.filter Event.isSend = w.calls.filter Event.isSend) ∧
    (∀ (w w1 : World) (e : EndId), h2o_tunnel_notify_sent w e = .ok w1 →
      w1.calls.filter Event.isSend = w.calls.filter Event.isSend) ∧
    (∀ (w : World) (err : Option String) (from_ : EndId) (bufs : List Iovec) (bufcnt : Nat)
        (is_final : Int), is_sending w = true →
      (h2o_tunnel_break w err).tunnel.err = err ∧
      (h2o_tunnel_break w err).freed = w.freed ∧
      ∃ w1, h2o_tunnel_send (h2o_tunnel_break w err) from_ bufs bufcnt is_final = .ok w1 ∧
        w1.tunnel.err = err ∧
        w1.calls.filter Event.isSend =
          w.calls.filter Event.isSend ++ [.send (other from_) bufs bufcnt is_final]) := by
  have hbreak : ∀ (w : World) (err : Option String),
      (h2o_tunnel_break w err).calls.filter Event.isSend = w.calls.filter Event.isSend := by
    intro w err
    obtain ⟨_, _, _, _, _, b6⟩ := break_spec w err
    rw [b6]
    cases is_sending w <;> simp
  refine ⟨fun w err => ⟨hbreak w err, hbreak w _⟩, ?_, ?_⟩
  · intro w w1 e hstep
    obtain ⟨w2, e2, _, _, _, _, _, h7⟩ :=
      notify_sent_spec w e (sending_of_notify_sent_ok w w1 e hstep)
    rw [hstep] at e2; cases e2
    rw [h7]
    by_cases hp : (w.getEnd (other e)).on_peer_send_complete = .null <;>
    by_cases hc : ((w.getEnd (other e)).sending ≠ 1 ∧ w.tunnel.down.shutdowned ≠ 0 ∧
        w.tunnel.up.shutdowned ≠ 0) <;>
      simp [hp, hc, Event.isSend]
  · intro w err from_ bufs bufcnt is_final hs
    obtain ⟨b1, _, _, _, b5, _⟩ := break_spec w err
    rw [hs] at b5
    obtain ⟨w1, h1, _, _, h4, _⟩ :=
      send_spec (h2o_tunnel_break w err) from_ bufs bufcnt is_final
    refine ⟨b1, by simpa using b5, w1, h1, by rw [h4, b1], ?_⟩
    rw [send_filter_isSend _ w1 from_ bufs bufcnt is_final h1, hbreak]

/-- Witness for C12, amended: in `up_sending` a break is deferred, and the
forward from `up` that follows calls `down.send`. -/
theorem C12_send_ignores_error_witness :
    is_sending up_sending = true ∧
    (∃ w1, h2o_tunnel_notify_sent up_sending .up = .ok w1 ∧
      w1.calls.filter Event.isSend = up_sending.calls.filter Event.isSend) ∧
    ∃ w1, h2o_tunnel_send (h2o_tunnel_break up_sending (some "reset")) .up [[98]] 1 0 =
        .ok w1 ∧
      w1.tunnel.err = some "reset" ∧
      w1.calls.filter Event.isSend =
        up_sending.calls.filter Event.isSend ++ [.send (other .up) [[98]] 1 0] := by
  refine ⟨by decide, ?_, ?_⟩
  · obtain ⟨w1, h1, _⟩ := notify_sent_spec up_sending .up (by decide)
    exact ⟨w1, h1, C12_send_ignores_error.2.1 up_sending w1 .up h1⟩
  · exact (C12_send_ignores_error.2.2 up_sending (some "reset") .up [[98]] 1 0
      (by decide)).2.2

/-- C13: the timer callback `on_timeout` is `h2o_tunnel_break` with the reason
"tunnel timeout"; when no end has a send in flight it tears down within the
callback: the timer entry is unlinked, `down.close` and `up.close` are called
with the reason "tunnel timeout", and the tunnel is freed. -/
theorem C13_timeout_breaks (w : World) :
    on_timeout w = h2o_tunnel_break w (some "tunnel timeout") ∧
    step w .timer = .ok (h2o_tunnel_break w (some "tunnel timeout")) ∧
    (on_timeout w).tunnel.err = some "tunnel timeout" ∧
    ((w.tunnel.down.sending ≠ 1 ∧ w.tunnel.up.sending ≠ 1) →
      (on_timeout w).freed = true ∧
      (on_timeout w).calls = w.calls ++
        [.timeout_unlink, .close .down (some "tunnel timeout"),
          .close .up (some "tunnel timeout"), .free]) := by
  obtain ⟨b1, _, _, _, b5, b6⟩ := break_spec w (some "tunnel timeout")
  refine ⟨rfl, rfl, b1, fun h => ?_⟩
  rw [is_sending_false_of w h.1 h.2] at b5 b6
  exact ⟨by simpa using b5, by simpa [teardown_calls] using b6⟩

/-- Witness for C13: on `idle_tunnel` the timer firing frees the tunnel, and
both closes receive "tunnel timeout". -/
theorem C13_timeout_breaks_witness :
    (idle_tunnel.tunnel.down.sending ≠ 1 ∧ idle_tunnel.tunnel.up.sending ≠ 1) ∧
    (on_timeout idle_tunnel).freed = true ∧
    (on_timeout idle_tunnel).calls = idle_tunnel.calls ++
      [.timeout_unlink, .close .down (some "tunnel timeout"),
        .close .up (some "tunnel timeout"), .free] :=
  ⟨by decide, (C13_timeout_breaks idle_tunnel).2.2.2 (by decide)⟩

/-- No `open` is called by `on_socket_read` without an error. -/
theorem on_socket_read_none_filter_open (w w1 : World) (sock : Nat)
    (h : on_socket_read w sock none = .ok w1) :
    w1.calls.filter Event.isOpen = w.calls.filter Event.isOpen := by
  unfold on_socket_read at h
  dsimp only at h
  by_cases hb : (w.socks sock).bytes_read = 0
  · rw [if_pos hb] at h; cases h; rfl
  · rw [if_neg hb] at h
    obtain ⟨w2, h2, _, _, _, _, _, h7⟩ :=
      send_one_spec (h2o_socket_read_stop w sock)
        (if w.tunnel.down.data = sock then EndId.down else EndId.up)
        ((h2o_socket_read_stop w sock).socks sock).input
    rw [h] at h2; cases h2
    rw [h7]
    simp [Event.isOpen]

/-- The call through `open` calls `open` once and no other `open`. -/
theorem invoke_open_filter_open (w w1 : World) (e : EndId)
    (h : invoke_open w e = .ok w1) :
    w1.calls.filter Event.isOpen = w.calls.filter Event.isOpen ++ [.open_ e] := by
  have hlog : (w.log (.open_ e)).calls.filter Event.isOpen =
      w.calls.filter Event.isOpen ++ [.open_ e] := by
    simp [Event.isOpen]
  unfold invoke_open at h
  dsimp only at h
  split at h
  · unfold socket_end_open at h
    dsimp only at h
    split at h
    · cases hr : on_socket_read
          ((w.log (.open_ e)).setSock ((w.log (.open_ e)).getEnd e).data
            { (w.log (.open_ e)).socks ((w.log (.open_ e)).getEnd e).data with data := true })
          ((w.log (.open_ e)).getEnd e).data none with
      | error f => rw [hr] at h; cases h
      | ok w2 =>
        rw [hr] at h
        cases h
        have := on_socket_read_none_filter_open _ w2 _ hr
        rw [read_start_calls, this, calls_setSock, hlog]
    · cases h
      rw [read_start_calls, calls_setSock, hlog]
  · cases h
    exact hlog

/-- C14: `h2o_tunnel_establish` starts calling `open` in a world `wi` in which
the error slot is empty, one timer registration is live, and both ends have
`shutdowned = 0` and `sending = 0` whatever the records passed in carried. From
there it calls `up.open` if registered, then `down.open` if registered, and
returns a live tunnel with the error slot empty and the timer armed, having
called each registered `open` exactly once, `up` first, and no close. -/
theorem C14_establish_opens (down up : End) (socks : Nat → Socket) :
    ∃ wi w0 : World,
      wi.tunnel.err = none ∧ wi.tunnel.timeout_entry = 1 ∧
      wi.tunnel.down = { down with shutdowned := 0, sending := 0 } ∧
      wi.tunnel.up = { up with shutdowned := 0, sending := 0 } ∧
      wi.trace = [.timeout_link] ∧
      h2o_tunnel_establish down up socks =
        ((if wi.tunnel.up.open_ ≠ .null then invoke_open wi .up else .ok wi) >>= fun w =>
          if w.tunnel.down.open_ ≠ .null then invoke_open w .down else .ok w) ∧
      h2o_tunnel_establish down up socks = .ok w0 ∧
      w0.tunnel.err = none ∧ w0.tunnel.timeout_entry = 1 ∧ w0.freed = false ∧
      w0.calls.filter Event.isOpen =
        (if up.open_ ≠ .null then [.open_ .up] else []) ++
        (if down.open_ ≠ .null then [.open_ .down] else []) ∧
      w0.calls.filter Event.isClose = [] := by
  obtain ⟨wi, hwt, hwf, _, hwtr, heq⟩ := establish_eq down up socks
  obtain ⟨w0, e0, hf, he, ht, _, _, _, _, hq⟩ := establish_spec down up socks
  have hwi_calls : wi.calls.filter Event.isOpen = [] := by
    rw [calls_def, hwtr]; rfl
  have hup : wi.tunnel.up.open_ = up.open_ := by rw [hwt]
  refine ⟨wi, w0, by rw [hwt], by rw [hwt], by rw [hwt], by rw [hwt], hwtr, heq, e0, he, ht,
    hf, ?_, ?_⟩
  · rw [heq] at e0
    have h1 : ∃ w1, (if wi.tunnel.up.open_ ≠ .null then invoke_open wi .up else .ok wi) =
        .ok w1 ∧ opened wi w1 ∧
        w1.calls.filter Event.isOpen = (if up.open_ ≠ .null then [.open_ .up] else []) := by
      by_cases hn : wi.tunnel.up.open_ = .null
      · refine ⟨wi, by rw [if_neg (by simpa using hn)], opened_refl wi, ?_⟩
        rw [hwi_calls, ← hup]; simp [hn]
      · obtain ⟨w1, k1, k2⟩ := invoke_open_opened wi .up
        refine ⟨w1, by rw [if_pos hn]; exact k1, k2, ?_⟩
        rw [invoke_open_filter_open wi w1 .up k1, hwi_calls, ← hup]; simp [hn]
    obtain ⟨w1, k1, k2, k3⟩ := h1
    rw [k1] at e0
    have e0b : (if w1.tunnel.down.open_ ≠ .null then invoke_open w1 .down else .ok w1) =
        .ok w0 := e0
    have hdown : w1.tunnel.down.open_ = down.open_ := by
      have := k2.2.2.1 .down
      simp only [World.getEnd, hwt] at this
      rw [this]
    by_cases hn : w1.tunnel.down.open_ = .null
    · rw [if_neg (by simpa using hn)] at e0b
      cases e0b
      rw [k3, ← hdown]; simp [hn]
    · rw [if_pos hn] at e0b
      rw [invoke_open_filter_open w1 w0 .down e0b, k3, ← hdown]; simp [hn]
  · rw [List.filter_eq_nil_iff]
    intro ev hev
    simp [(hq ev hev).2.1]

/-- C15: with `timeout_entry` counting the live registrations of the timeout
entry, unlinking leaves none and linking adds one; `h2o_tunnel_establish`
returns with exactly one live; every `h2o_tunnel_send` and every
`h2o_tunnel_notify_sent` first unlinks and then links the entry, and returns
with exactly one live when it does not tear down and with none when it does;
after `break_now` none is live. -/
theorem C15_timer_registrations :
    (∀ w : World, (h2o_timeout_unlink w).tunnel.timeout_entry = 0 ∧
      (h2o_timeout_link w).tunnel.timeout_entry = w.tunnel.timeout_entry + 1 ∧
      (break_now w).tunnel.timeout_entry = 0) ∧
    (∀ (down up : End) (socks : Nat → Socket),
      ∃ w0, h2o_tunnel_establish down up socks = .ok w0 ∧ w0.tunnel.timeout_entry = 1) ∧
    (∀ (w : World) (from_ : EndId) (bufs : List Iovec) (bufcnt : Nat) (is_final : Int),
      ∃ w1 rest, h2o_tunnel_send w from_ bufs bufcnt is_final = .ok w1 ∧
        w1.calls = w.calls ++ [.timeout_unlink, .timeout_link] ++ rest ∧
        ((rest.count .free = 0 ∧ w1.tunnel.timeout_entry = 1) ∨
         (rest.count .free = 1 ∧ w1.tunnel.timeout_entry = 0))) ∧
    (∀ (w : World) (e : EndId), (w.getEnd e).sending = 1 →
      ∃ w1 rest, h2o_tunnel_notify_sent w e = .ok w1 ∧
        w1.calls = w.calls ++ [.timeout_unlink, .timeout_link] ++ rest ∧
        ((rest.count .free = 0 ∧ w1.tunnel.timeout_entry = 1) ∨
         (rest.count .free = 1 ∧ w1.tunnel.timeout_entry = 0))) := by
  refine ⟨fun w => ⟨rfl, rfl, by rw [break_now_tunnel]⟩, ?_, ?_, ?_⟩
  · intro down up socks
    obtain ⟨w0, e0, _, _, ht, _⟩ := establish_spec down up socks
    exact ⟨w0, e0, ht⟩
  · intro w from_ bufs bufcnt is_final
    obtain ⟨w1, h1, _, _, _, g4, _, g6⟩ := send_spec w from_ bufs bufcnt is_final
    refine ⟨w1, [Event.send (other from_) bufs bufcnt is_final] ++
      (if (w.getEnd (other from_)).send = .socket_end_send ∧ bufcnt = 0 then
        [Event.timeout_unlink, Event.timeout_link] ++
        (if (w.getEnd from_).on_peer_send_complete ≠ .null then
          [Event.on_peer_send_complete from_ (other from_)] else []) ++
        (if (w.getEnd from_).sending ≠ 1 ∧
            (is_final ≠ 0 ∨ (w.getEnd from_).shutdowned ≠ 0) ∧
            (w.getEnd (other from_)).shutdowned ≠ 0 then teardown_calls w.tunnel.err
         else [])
       else []), h1, ?_, ?_⟩
    · rw [g6]
      simp only [List.append_assoc, List.cons_append, List.nil_append]
    · rw [g4]
      by_cases hs : (w.getEnd (other from_)).send = .socket_end_send ∧ bufcnt = 0 <;>
      by_cases hq : (w.getEnd from_).on_peer_send_complete = .null <;>
      by_cases hc : ((w.getEnd from_).sending ≠ 1 ∧
          (is_final ≠ 0 ∨ (w.getEnd from_).shutdowned ≠ 0) ∧
          (w.getEnd (other from_)).shutdowned ≠ 0) <;>
        simp [hs, hq, hc, List.count_cons]
  · intro w e h
    obtain ⟨w1, h1, _, _, _, g4, _, g6⟩ := notify_sent_spec w e h
    refine ⟨w1,
      (if (w.getEnd (other e)).on_peer_send_complete ≠ .null then
        [Event.on_peer_send_complete (other e) e] else []) ++
      (if (w.getEnd (other e)).sending ≠ 1 ∧ w.tunnel.down.shutdowned ≠ 0 ∧
          w.tunnel.up.shutdowned ≠ 0 then teardown_calls w.tunnel.err else []), h1, ?_, ?_⟩
    · rw [g6]
      simp only [List.append_assoc]
    · rw [g4]
      by_cases hp : (w.getEnd (other e)).on_peer_send_complete = .null <;>
      by_cases hc : ((w.getEnd (other e)).sending ≠ 1 ∧ w.tunnel.down.shutdowned ≠ 0 ∧
          w.tunnel.up.shutdowned ≠ 0) <;>
        simp [hp, hc, List.count_cons]

/-- Witness for C15: the completion for `up` in `up_sending` re-arms the timer
and leaves one registration live. -/
theorem C15_timer_registrations_witness :
    (up_sending.getEnd .up).sending = 1 ∧
    ∃ w1 rest, h2o_tunnel_notify_sent up_sending .up = .ok w1 ∧
      w1.calls = up_sending.calls ++ [.timeout_unlink, .timeout_link] ++ rest ∧
      ((rest.count .free = 0 ∧ w1.tunnel.timeout_entry = 1) ∨
       (rest.count .free = 1 ∧ w1.tunnel.timeout_entry = 0)) :=
  ⟨by decide, C15_timer_registrations.2.2.2 up_sending .up (by decide)⟩

/-! ## Effect on the whole trace -/

theorem invoke_close_trace_filter (p : Event → Bool) (w : World) (e : EndId)
    (err : Option String) (h6 : ∀ a b, p (.close a b) = false)
    (h7 : ∀ k, p (.socket_close k) = false) :
    (invoke_close w e err).trace.filter p = w.trace.filter p := by
  unfold invoke_close
  dsimp only
  split <;> simp [socket_end_close, h2o_socket_close, List.filter_append, h6, h7]

theorem break_now_trace_filter (p : Event → Bool) (w : World)
    (h1 : p .timeout_unlink = false) (h6 : ∀ a b, p (.close a b) = false)
    (h7 : ∀ k, p (.socket_close k) = false) (h8 : p .free = false) :
    (break_now w).trace.filter p = w.trace.filter p := by
  have h : (break_now w).trace =
      (invoke_close (invoke_close (h2o_timeout_unlink w) .down
        (h2o_timeout_unlink w).tunnel.err) .up
        (invoke_close (h2o_timeout_unlink w) .down
          (h2o_timeout_unlink w).tunnel.err).tunnel.err).trace ++ [.free] := rfl
  rw [h, List.filter_append, invoke_close_trace_filter p _ _ _ h6 h7,
    invoke_close_trace_filter p _ _ _ h6 h7]
  simp [h2o_timeout_unlink, List.filter_append, h1, h8]

theorem invoke_psc_trace_filter (p : Event → Bool) (w : World) (e peer : EndId)
    (h3 : ∀ a b, p (.on_peer_send_complete a b) = false)
    (h4 : ∀ k n, p (.buffer_consume k n) = false)
    (h5 : ∀ k, p (.socket_read_start k) = false) :
    (invoke_on_peer_send_complete w e peer).trace.filter p = w.trace.filter p := by
  unfold invoke_on_peer_send_complete
  dsimp only
  split <;> simp [socket_end_on_peer_send_complete, h2o_buffer_consume,
    h2o_socket_read_start, List.filter_append, h3, h4, h5]

/-- A completion adds to the trace only calls to the timer queue, to
`on_peer_send_complete`, to `close`, to `free`, and what the socket end does
inside `on_peer_send_complete` and `close`. -/
theorem notify_sent_trace_filter (p : Event → Bool) (w w1 : World) (e : EndId)
    (h1 : p .timeout_unlink = false) (h2 : p .timeout_link = false)
    (h3 : ∀ a b, p (.on_peer_send_complete a b) = false)
    (h4 : ∀ k n, p (.buffer_consume k n) = false)
    (h5 : ∀ k, p (.socket_read_start k) = false)
    (h6 : ∀ a b, p (.close a b) = false)
    (h7 : ∀ k, p (.socket_close k) = false) (h8 : p .free = false)
    (h : h2o_tunnel_notify_sent w e = .ok w1) :
    w1.trace.filter p = w.trace.filter p := by
  have hs := sending_of_notify_sent_ok w w1 e h
  unfold h2o_tunnel_notify_sent at h
  rw [if_neg (by simpa using hs)] at h
  dsimp only at h
  have hreset : ((reset_timeout w).setEnd e
      { (reset_timeout w).getEnd e with sending := 0 }).trace.filter p = w.trace.filter p := by
    simp [reset_timeout, h2o_timeout_unlink, h2o_timeout_link, List.filter_append, h1, h2]
  obtain ⟨y, hy, hh⟩ : ∃ y : World, y.trace.filter p = w.trace.filter p ∧
      (if (!is_sending y && decide (y.tunnel.down.shutdowned ≠ 0) &&
          decide (y.tunnel.up.shutdowned ≠ 0)) = true
        then Except.ok (break_now y) else Except.ok y) = (Except.ok w1 : Except Fault World) := by
    refine ⟨_, ?_, h⟩
    split
    · rw [invoke_psc_trace_filter p _ _ _ h3 h4 h5, hreset]
    · exact hreset
  split at hh
  · cases hh
    rw [break_now_trace_filter p _ h1 h6 h7 h8, hy]
  · cases hh
    exact hy

/-- C16: `socket_end_send` with `bufcnt = 0` is one call of
`h2o_tunnel_notify_sent` for its own end, made after the half-close when
`is_final` is non-zero; for an end marked sending it returns with the flag
cleared, having written nothing to a socket and half-closed the socket exactly
when `is_final` is non-zero. With `bufcnt != 0` it writes once to the socket,
half-closes it exactly when `is_final` is non-zero, and leaves the tunnel as it
was: no completion. Hence `h2o_tunnel_send` with no buffer onto a socket end
returns with the target's `sending` back at 0. -/
theorem C16_socket_end_send :
    (∀ (w : World) (e : EndId) (bufs : List Iovec) (is_final : Int),
      socket_end_send w e bufs 0 is_final =
        h2o_tunnel_notify_sent
          (if is_final ≠ 0 then h2o_socket_shutdown w (w.getEnd e).data else w) e ∧
      ((w.getEnd e).sending = 1 →
        ∃ w1, socket_end_send w e bufs 0 is_final = .ok w1 ∧
          (w1.getEnd e).sending = 0 ∧
          w1.trace.filter Event.isSocketWrite = w.trace.filter Event.isSocketWrite ∧
          w1.trace.filter Event.isSocketShutdown =
            w.trace.filter Event.isSocketShutdown ++
              (if is_final ≠ 0 then [.socket_shutdown (w.getEnd e).data] else []))) ∧
    (∀ (w : World) (e : EndId) (bufs : List Iovec) (bufcnt : Nat) (is_final : Int),
      bufcnt ≠ 0 →
      ∃ w1, socket_end_send w e bufs bufcnt is_final = .ok w1 ∧
        w1.tunnel = w.tunnel ∧ w1.freed = w.freed ∧
        w1.trace = w.trace ++ [.socket_write (w.getEnd e).data bufs bufcnt] ++
          (if is_final ≠ 0 then [.socket_shutdown (w.getEnd e).data] else [])) ∧
    (∀ (w : World) (from_ : EndId) (bufs : List Iovec) (is_final : Int),
      (w.getEnd (other from_)).send = .socket_end_send →
      ∃ w1, h2o_tunnel_send w from_ bufs 0 is_final = .ok w1 ∧
        (w1.getEnd (other from_)).sending = 0) := by
  refine ⟨fun w e bufs is_final => ?_, ?_, ?_⟩
  · have heq : socket_end_send w e bufs 0 is_final =
        h2o_tunnel_notify_sent
          (if is_final ≠ 0 then h2o_socket_shutdown w (w.getEnd e).data else w) e := by
      unfold socket_end_send
      simp only [ne_eq, not_true_eq_false, if_false, if_true]
    refine ⟨heq, fun hs => ?_⟩
    rw [heq]
    by_cases hfin : is_final = 0
    · simp only [hfin, ne_eq, not_true_eq_false, if_false, List.append_nil]
      obtain ⟨w1, h1, g1, _⟩ := notify_sent_spec w e hs
      refine ⟨w1, h1, by rw [g1], ?_, ?_⟩
      · exact notify_sent_trace_filter _ w w1 e rfl rfl (fun _ _ => rfl) (fun _ _ => rfl)
          (fun _ => rfl) (fun _ _ => rfl) (fun _ => rfl) rfl h1
      · exact notify_sent_trace_filter _ w w1 e rfl rfl (fun _ _ => rfl) (fun _ _ => rfl)
          (fun _ => rfl) (fun _ _ => rfl) (fun _ => rfl) rfl h1
    · simp only [hfin, ne_eq, not_false_eq_true, if_true]
      have hs2 : ((h2o_socket_shutdown w (w.getEnd e).data).getEnd e).sending = 1 := by
        simp [h2o_socket_shutdown, hs]
      obtain ⟨w1, h1, g1, _⟩ := notify_sent_spec _ e hs2
      refine ⟨w1, h1, by rw [g1], ?_, ?_⟩
      · rw [notify_sent_trace_filter _ _ w1 e rfl rfl (fun _ _ => rfl) (fun _ _ => rfl)
          (fun _ => rfl) (fun _ _ => rfl) (fun _ => rfl) rfl h1]
        simp [h2o_socket_shutdown, List.filter_append, Event.isSocketWrite]
      · rw [notify_sent_trace_filter _ _ w1 e rfl rfl (fun _ _ => rfl) (fun _ _ => rfl)
          (fun _ => rfl) (fun _ _ => rfl) (fun _ => rfl) rfl h1]
        simp [h2o_socket_shutdown, List.filter_append, Event.isSocketShutdown]
  · intro w e bufs bufcnt is_final hb
    unfold socket_end_send
    dsimp only
    rw [if_pos hb, if_neg hb]
    refine ⟨_, rfl, ?_⟩
    by_cases hfin : is_final = 0 <;> simp [hfin, h2o_socket_write, h2o_socket_shutdown]
  · intro w from_ bufs is_final hs
    obtain ⟨w1, h1, _, g2, _⟩ := send_spec w from_ bufs 0 is_final
    refine ⟨w1, h1, ?_⟩
    rw [g2]; simp [hs]

/-- Witness for C16: in `up_sending` the socket end `up` given no buffer and
`is_final = 1` completes at once and half-closes socket 2; given one buffer it
writes once and completes nothing; a forward of no buffer onto `up` returns
with `up.sending = 0`. -/
theorem C16_socket_end_send_witness :
    (up_sending.getEnd .up).sending = 1 ∧ (1 : Nat) ≠ 0 ∧
    (up_sending.getEnd (other .down)).send = .socket_end_send ∧
    (∃ w1, socket_end_send up_sending .up [] 0 1 = .ok w1 ∧
      (w1.getEnd .up).sending = 0 ∧
      w1.trace.filter Event.isSocketWrite = [] ∧
      w1.trace.filter Event.isSocketShutdown = [.socket_shutdown 2]) ∧
    (∃ w1, socket_end_send up_sending .up [[97]] 1 0 = .ok w1 ∧
      w1.tunnel = up_sending.tunnel ∧
      w1.trace = up_sending.trace ++ [.socket_write 2 [[97]] 1]) ∧
    ∃ w1, h2o_tunnel_send up_sending .down [] 0 0 = .ok w1 ∧
      (w1.getEnd (other .down)).sending = 0 := by
  refine ⟨by decide, by decide, by decide, ?_, ?_, ?_⟩
  · obtain ⟨w1, h1, h2, h3, h4⟩ := (C16_socket_end_send.1 up_sending .up [] 1).2 (by decide)
    exact ⟨w1, h1, h2, h3, h4⟩
  · obtain ⟨w1, h1, h2, _, h4⟩ := C16_socket_end_send.2.1 up_sending .up [[97]] 1 0 (by decide)
    exact ⟨w1, h1, h2, h4⟩
  · exact C16_socket_end_send.2.2 up_sending .down [] 0 (by decide)

/-- C17: in `on_socket_read` for the socket `sock` of end `e` (the two ends
having different sockets), the error `h2o_socket_error_closed` first stops
reading and then becomes `h2o_tunnel_send` from `e` with no buffer, count 0 and
`is_final = 1`: the error slot and the other end's `shutdowned` stay as they
were, so no break; any other error first stops reading and then becomes
`h2o_tunnel_break` with that reason, and no `send` is called; a callback with
no error and zero bytes read returns the world unchanged. -/
theorem C17_on_socket_read_errors (w : World) (sock : Nat) (e : EndId)
    (he : (w.getEnd e).data = sock) (hdist : w.tunnel.down.data ≠ w.tunnel.up.data) :
    (h2o_socket_read_stop w sock).trace = w.trace ++ [.socket_read_stop sock] ∧
    ((h2o_socket_read_stop w sock).socks sock).reading = false ∧
    (h2o_socket_read_stop w sock).tunnel = w.tunnel ∧
    on_socket_read w sock (some h2o_socket_error_closed) =
      h2o_tunnel_send (h2o_socket_read_stop w sock) e [] 0 1 ∧
    (∃ w1, on_socket_read w sock (some h2o_socket_error_closed) = .ok w1 ∧
      w1.tunnel.err = w.tunnel.err ∧
      (w1.getEnd (other e)).shutdowned = (w.getEnd (other e)).shutdowned ∧
      w1.calls.filter Event.isSend = w.calls.filter Event.isSend ++ [.send (other e) [] 0 1]) ∧
    (∀ reason : String, reason ≠ h2o_socket_error_closed →
      on_socket_read w sock (some reason) =
        .ok (h2o_tunnel_break (h2o_socket_read_stop w sock) (some reason)) ∧
      (h2o_tunnel_break (h2o_socket_read_stop w sock) (some reason)).tunnel.err =
        some reason ∧
      (h2o_tunnel_break (h2o_socket_read_stop w sock) (some reason)).calls.filter
        Event.isSend = w.calls.filter Event.isSend) ∧
    ((w.socks sock).bytes_read = 0 → on_socket_read w sock none = .ok w) := by
  have hres : (if w.tunnel.down.data = sock then EndId.down else EndId.up) = e := by
    cases e
    · simp only [World.getEnd] at he; rw [if_pos he]
    · simp only [World.getEnd] at he
      rw [if_neg]; rw [← he]; exact hdist
  have hclosed : on_socket_read w sock (some h2o_socket_error_closed) =
      h2o_tunnel_send (h2o_socket_read_stop w sock) e [] 0 1 := by
    unfold on_socket_read
    simp only [if_true, hres]
  refine ⟨rfl, by simp [h2o_socket_read_stop, World.setSock, World.log], rfl, hclosed, ?_,
    ?_, ?_⟩
  · rw [hclosed]
    obtain ⟨w1, h1, _, g2, g3, _⟩ := send_spec (h2o_socket_read_stop w sock) e [] 0 1
    refine ⟨w1, h1, by rw [g3]; rfl, by rw [g2]; simp, ?_⟩
    rw [send_filter_isSend _ w1 e [] 0 1 h1, read_stop_calls]
  · intro reason hne
    refine ⟨?_, (break_spec _ _).1, ?_⟩
    · unfold on_socket_read
      simp only [hne, if_false]
    · obtain ⟨_, _, _, _, _, b6⟩ := break_spec (h2o_socket_read_stop w sock) (some reason)
      rw [b6, read_stop_calls]
      cases is_sending (h2o_socket_read_stop w sock) <;> simp
  · intro hb
    unfold on_socket_read
    simp only [hb, if_true]

/-- Witness for C17: on `up_sending`, whose ends hold sockets 1 and 2, a clean
end-of-stream on socket 1 becomes a final forward from `down`, and the error
"reset" becomes a break with that reason. -/
theorem C17_on_socket_read_errors_witness :
    (up_sending.getEnd .down).data = 1 ∧
    up_sending.tunnel.down.data ≠ up_sending.tunnel.up.data ∧
    "reset" ≠ h2o_socket_error_closed ∧
    (up_sending.socks 1).bytes_read = 0 ∧
    on_socket_read up_sending 1 (some h2o_socket_error_closed) =
      h2o_tunnel_send (h2o_socket_read_stop up_sending 1) .down [] 0 1 ∧
    on_socket_read up_sending 1 (some "reset") =
      .ok (h2o_tunnel_break (h2o_socket_read_stop up_sending 1) (some "reset")) ∧
    on_socket_read up_sending 1 none = .ok up_sending :=
  ⟨by decide, by decide, by decide, by decide,
    (C17_on_socket_read_errors up_sending 1 .down (by decide) (by decide)).2.2.2.1,
    ((C17_on_socket_read_errors up_sending 1 .down (by decide) (by decide)).2.2.2.2.2.1
      "reset" (by decide)).1,
    (C17_on_socket_read_errors up_sending 1 .down (by decide) (by decide)).2.2.2.2.2.2
      (by decide)⟩

/-! ## Exchanging the two ends -/

@[simp] theorem swap_getEnd (w : World) (x : EndId) : w.swap.getEnd x = w.getEnd (other x) := by
  cases x <;> rfl
@[simp] theorem swap_down (w : World) : w.swap.tunnel.down = w.tunnel.up := rfl
@[simp] theorem swap_up (w : World) : w.swap.tunnel.up = w.tunnel.down := rfl
@[simp] theorem swap_err (w : World) : w.swap.tunnel.err = w.tunnel.err := rfl
@[simp] theorem swap_timeout_entry (w : World) :
    w.swap.tunnel.timeout_entry = w.tunnel.timeout_entry := rfl
@[simp] theorem swap_freed (w : World) : w.swap.freed = w.freed := rfl

theorem isSocketCall_swap (ev : Event) : ev.swap.isSocketCall = ev.isSocketCall := by
  cases ev <;> rfl

theorem swap_calls (w : World) : w.swap.calls = w.calls.map Event.swap := by
  show (w.trace.map Event.swap).filter (fun ev => !ev.isSocketCall) =
    (w.trace.filter (fun ev => !ev.isSocketCall)).map Event.swap
  rw [List.filter_map]
  congr 1
  apply List.filter_congr
  intro ev _
  simp [isSocketCall_swap]

theorem teardown_swap_perm (err : Option String) :
    (teardown_calls err).Perm ((teardown_calls err).map Event.swap) :=
  List.Perm.cons _ (List.Perm.swap _ _ _)

theorem is_sending_swap (w : World) : is_sending w.swap = is_sending w := by
  simp [is_sending, Bool.or_comm]

/-- Two worlds whose ends are each other's exchanged and whose timer and error
slot agree have exchanged tunnels. -/
theorem swap_tunnel_of (w1 w2 : World) (e : EndId)
    (ha : w2.getEnd (other e) = w1.getEnd e) (hb : w2.getEnd e = w1.getEnd (other e))
    (ht : w2.tunnel.timeout_entry = w1.tunnel.timeout_entry)
    (he : w2.tunnel.err = w1.tunnel.err) : w2.tunnel = w1.swap.tunnel := by
  obtain ⟨t2, _, _, _⟩ := w2
  obtain ⟨t1, _, _, _⟩ := w1
  cases t2; cases t1
  cases e <;> simp_all [World.getEnd, World.swap, other]

theorem send_swap (w : World) (from_ : EndId) (bufs : List Iovec) (bufcnt : Nat)
    (is_final : Int) :
    ∃ w1 w2, h2o_tunnel_send w from_ bufs bufcnt is_final = .ok w1 ∧
      h2o_tunnel_send w.swap (other from_) bufs bufcnt is_final = .ok w2 ∧
      w2.tunnel = w1.swap.tunnel ∧ w2.freed = w1.freed ∧ w2.calls.Perm w1.swap.calls := by
  obtain ⟨w1, h1, a1, a2, a3, a4, a5, a6⟩ := send_spec w from_ bufs bufcnt is_final
  obtain ⟨w2, h2, b1, b2, b3, b4, b5, b6⟩ :=
    send_spec w.swap (other from_) bufs bufcnt is_final
  simp only [swap_getEnd, other_other, swap_err, swap_freed] at b1 b2 b3 b4 b5 b6
  refine ⟨w1, w2, h1, h2, ?_, ?_, ?_⟩
  · exact swap_tunnel_of w1 w2 from_ (by rw [b1, a1]) (by rw [b2, a2]) (by rw [b4, a4])
      (by rw [b3, a3])
  · rw [b5, a5]
  · rw [swap_calls w1, a6, b6, swap_calls w]
    by_cases hs : (w.getEnd (other from_)).send = .socket_end_send ∧ bufcnt = 0 <;>
    by_cases hq : (w.getEnd from_).on_peer_send_complete = .null <;>
    by_cases hc : ((w.getEnd from_).sending ≠ 1 ∧
        (is_final ≠ 0 ∨ (w.getEnd from_).shutdowned ≠ 0) ∧
        (w.getEnd (other from_)).shutdowned ≠ 0) <;>
      (try simp [hs, hq, hc, Event.swap]) <;>
      (repeat (first | exact teardown_swap_perm _ | apply List.Perm.append_left |
        apply List.Perm.cons))

theorem notify_sent_swap (w : World) (e : EndId) (h : (w.getEnd e).sending = 1) :
    ∃ w1 w2, h2o_tunnel_notify_sent w e = .ok w1 ∧
      h2o_tunnel_notify_sent w.swap (other e) = .ok w2 ∧
      w2.tunnel = w1.swap.tunnel ∧ w2.freed = w1.freed ∧ w2.calls.Perm w1.swap.calls := by
  obtain ⟨w1, h1, a1, a2, a3, a4, a5, a6⟩ := notify_sent_spec w e h
  obtain ⟨w2, h2, b1, b2, b3, b4, b5, b6⟩ :=
    notify_sent_spec w.swap (other e) (by rw [swap_getEnd, other_other]; exact h)
  have hcomm : (w.tunnel.up.shutdowned ≠ 0 ∧ w.tunnel.down.shutdowned ≠ 0) ↔
      (w.tunnel.down.shutdowned ≠ 0 ∧ w.tunnel.up.shutdowned ≠ 0) := and_comm
  simp only [swap_getEnd, other_other, swap_err, swap_freed, swap_down, swap_up, hcomm]
    at b1 b2 b3 b4 b5 b6
  refine ⟨w1, w2, h1, h2, ?_, ?_, ?_⟩
  · exact swap_tunnel_of w1 w2 e (by rw [b1, a1]) (by rw [b2, a2]) (by rw [b4, a4])
      (by rw [b3, a3])
  · rw [b5, a5]
  · rw [swap_calls w1, a6, b6, swap_calls w]
    by_cases hq : (w.getEnd (other e)).on_peer_send_complete = .null <;>
    by_cases hc : ((w.getEnd (other e)).sending ≠ 1 ∧ w.tunnel.down.shutdowned ≠ 0 ∧
        w.tunnel.up.shutdowned ≠ 0) <;>
      (try simp [hq, hc, Event.swap]) <;>
      (repeat (first | exact teardown_swap_perm _ | apply List.Perm.append_left |
        apply List.Perm.cons))

theorem break_swap (w : World) (err : Option String) :
    (h2o_tunnel_break w.swap err).tunnel = (h2o_tunnel_break w err).swap.tunnel ∧
    (h2o_tunnel_break w.swap err).freed = (h2o_tunnel_break w err).freed ∧
    (h2o_tunnel_break w.swap err).calls.Perm (h2o_tunnel_break w err).swap.calls := by
  obtain ⟨a1, a2, a3, a4, a5, a6⟩ := break_spec w err
  obtain ⟨b1, b2, b3, b4, b5, b6⟩ := break_spec w.swap err
  simp only [is_sending_swap, swap_down, swap_up, swap_timeout_entry, swap_freed]
    at b2 b3 b4 b5 b6
  refine ⟨?_, by rw [b5, a5], ?_⟩
  · refine swap_tunnel_of _ _ .down ?_ ?_ (by rw [b4, a4]) (by rw [b1, a1])
    · show (h2o_tunnel_break w.swap err).tunnel.up = (h2o_tunnel_break w err).tunnel.down
      rw [b3, a2]
    · show (h2o_tunnel_break w.swap err).tunnel.down = (h2o_tunnel_break w err).tunnel.up
      rw [b2, a3]
  · rw [swap_calls, a6, b6, swap_calls w]
    cases is_sending w <;>
      ((try simp); (repeat (first | exact teardown_swap_perm _ |
        apply List.Perm.append_left | apply List.Perm.cons)))

/-- C18: exchanging the roles of `down` and `up` in the tunnel and in the end
argument exchanges the result of `h2o_tunnel_send`, of
`h2o_tunnel_notify_sent` and of `h2o_tunnel_break`: the tunnel after the call
on the exchanged world is the exchanged tunnel after the call (flags, error
slot, timer), the same is freed, a completion fails its assertion in both or in
neither, and the calls made are the exchanged calls up to their order (only the
two `close` calls of a teardown change places). -/
theorem C18_symmetry :
    (∀ (w : World) (from_ : EndId) (bufs : List Iovec) (bufcnt : Nat) (is_final : Int),
      ∃ w1 w2, h2o_tunnel_send w from_ bufs bufcnt is_final = .ok w1 ∧
        h2o_tunnel_send w.swap (other from_) bufs bufcnt is_final = .ok w2 ∧
        w2.tunnel = w1.swap.tunnel ∧ w2.freed = w1.freed ∧ w2.calls.Perm w1.swap.calls) ∧
    (∀ (w : World) (e : EndId),
      ((w.getEnd e).sending ≠ 1 →
        h2o_tunnel_notify_sent w e = .error .assertion_failed ∧
        h2o_tunnel_notify_sent w.swap (other e) = .error .assertion_failed) ∧
      ((w.getEnd e).sending = 1 →
        ∃ w1 w2, h2o_tunnel_notify_sent w e = .ok w1 ∧
          h2o_tunnel_notify_sent w.swap (other e) = .ok w2 ∧
          w2.tunnel = w1.swap.tunnel ∧ w2.freed = w1.freed ∧
          w2.calls.Perm w1.swap.calls)) ∧
    (∀ (w : World) (err : Option String),
      (h2o_tunnel_break w.swap err).tunnel = (h2o_tunnel_break w err).swap.tunnel ∧
      (h2o_tunnel_break w.swap err).freed = (h2o_tunnel_break w err).freed ∧
      (h2o_tunnel_break w.swap err).calls.Perm (h2o_tunnel_break w err).swap.calls) := by
  refine ⟨send_swap, fun w e => ⟨fun h => ?_, notify_sent_swap w e⟩, break_swap⟩
  constructor
  · unfold h2o_tunnel_notify_sent
    rw [if_pos h]
  · unfold h2o_tunnel_notify_sent
    rw [if_pos (by rw [swap_getEnd, other_other]; exact h)]

/-- Witness for C18: the completion for `up` in `up_sending` and the completion
for `down` in the exchanged world give exchanged tunnels; the completion for
`down` in `up_sending` fails its assertion, as does its exchanged call. -/
theorem C18_symmetry_witness :
    (up_sending.getEnd .up).sending = 1 ∧ (up_sending.getEnd .down).sending ≠ 1 ∧
    (∃ w1 w2, h2o_tunnel_notify_sent up_sending .up = .ok w1 ∧
      h2o_tunnel_notify_sent up_sending.swap (other .up) = .ok w2 ∧
      w2.tunnel = w1.swap.tunnel ∧ w2.freed = w1.freed ∧ w2.calls.Perm w1.swap.calls) ∧
    h2o_tunnel_notify_sent up_sending .down = .error .assertion_failed ∧
    h2o_tunnel_notify_sent up_sending.swap (other .down) = .error .assertion_failed :=
  ⟨by decide, by decide, (C18_symmetry.2.1 up_sending .up).2 (by decide),
    (C18_symmetry.2.1 up_sending .down).1 (by decide)⟩

theorem eq_other_of_ne (x e : EndId) (h : x ≠ e) : x = other e := by
  cases x <;> cases e <;> simp_all [other]

theorem is_sending_of_end (w : World) (e : EndId) (h : (w.getEnd e).sending = 1) :
    is_sending w = true := by
  rw [is_sending_iff]
  cases e
  · exact Or.inl h
  · exact Or.inr h

/-- While a send to `e` stays in flight, an entry that is neither a completion
for `e` nor a forward onto `e` frees nothing and closes nothing. -/
theorem step_keeps_in_flight (w w1 : World) (e : EndId) (op : Op)
    (hs : (w.getEnd e).sending = 1) (hop : op.keeps_in_flight e = true)
    (hstep : step w op = .ok w1) :
    w1.freed = w.freed ∧ (w1.getEnd e).sending = 1 ∧
    w1.calls.filter Event.isClose = w.calls.filter Event.isClose := by
  have hbreak : ∀ err, (h2o_tunnel_break w err).freed = w.freed ∧
      ((h2o_tunnel_break w err).getEnd e).sending = 1 ∧
      (h2o_tunnel_break w err).calls.filter Event.isClose = w.calls.filter Event.isClose := by
    intro err
    obtain ⟨_, b2, b3, _, b5, b6⟩ := break_spec w err
    rw [is_sending_of_end w e hs] at b5 b6
    refine ⟨by simpa using b5, ?_, by rw [b6]; simp⟩
    cases e
    · show (h2o_tunnel_break w err).tunnel.down.sending = 1
      rw [b2]; exact hs
    · show (h2o_tunnel_break w err).tunnel.up.sending = 1
      rw [b3]; exact hs
  cases op with
  | send from_ bufs bufcnt is_final =>
    have hfrom : from_ = e := by simpa [Op.keeps_in_flight] using hop
    subst hfrom
    obtain ⟨w2, e2, g1, _, _, _, g5, g6⟩ := send_spec w from_ bufs bufcnt is_final
    have hstep2 : h2o_tunnel_send w from_ bufs bufcnt is_final = .ok w1 := hstep
    rw [hstep2] at e2; cases e2
    refine ⟨?_, by rw [g1]; exact hs, ?_⟩
    · rw [g5]; simp [hs]
    · rw [g6]
      by_cases hsy : (w.getEnd (other from_)).send = .socket_end_send ∧ bufcnt = 0 <;>
      by_cases hq : (w.getEnd from_).on_peer_send_complete = .null <;>
        simp [hsy, hq, hs, Event.isClose]
  | notify_sent x =>
    have hx : x = other e := eq_other_of_ne x e (by simpa [Op.keeps_in_flight] using hop)
    subst hx
    have hstep2 : h2o_tunnel_notify_sent w (other e) = .ok w1 := hstep
    obtain ⟨w2, e2, _, g2, _, _, g5, g6⟩ :=
      notify_sent_spec w (other e) (sending_of_notify_sent_ok w w1 (other e) hstep2)
    rw [hstep2] at e2; cases e2
    rw [other_other] at g2 g5 g6
    refine ⟨?_, by rw [g2]; exact hs, ?_⟩
    · rw [g5]; simp [hs]
    · rw [g6]
      by_cases hq : (w.getEnd e).on_peer_send_complete = .null <;>
        simp [hq, hs, Event.isClose]
  | break_ err =>
    simp only [step, Except.ok.injEq] at hstep
    rw [← hstep]; exact hbreak err
  | timer =>
    simp only [step, Except.ok.injEq] at hstep
    rw [← hstep]; exact hbreak _

theorem run_keeps_in_flight (e : EndId) (ops : List Op) : ∀ w : World,
    w.freed = false → (w.getEnd e).sending = 1 →
    (∀ op ∈ ops, op.keeps_in_flight e = true) →
    (run w ops).freed = false ∧ ((run w ops).getEnd e).sending = 1 ∧
    (run w ops).calls.filter Event.isClose = w.calls.filter Event.isClose := by
  induction ops with
  | nil => intro w hf hs _; exact ⟨hf, hs, rfl⟩
  | cons op rest ih =>
    intro w hf hs hall
    unfold run
    rw [if_neg (by simp [hf])]
    cases hstep : step w op with
    | error f => exact ⟨hf, hs, rfl⟩
    | ok w1 =>
      dsimp only
      obtain ⟨k1, k2, k3⟩ := step_keeps_in_flight w w1 e op hs
        (hall op (List.mem_cons_self _ _)) hstep
      obtain ⟨r1, r2, r3⟩ := ih w1 (by rw [k1, hf]) k2
        (fun o ho => hall o (List.mem_cons_of_mem _ ho))
      exact ⟨r1, r2, by rw [r3, k3]⟩

/-- C19: when a socket write completes with an error while a send to an end `e`
is in flight on a live tunnel, `on_socket_write_complete` is `h2o_tunnel_break`
with that error: the error is recorded, both `shutdowned` flags are 1, `e`
still has `sending = 1`, nothing is added to the trace (no close) and nothing
is freed. In every sequence of later entries without a completion for `e`
(breaks, timer firings, completions for the other end, forwards from `e`) the
tunnel is never freed, no close is called and `e` keeps `sending = 1`. -/
theorem C19_write_error_defers_forever (w : World) (sock : Nat) (reason : String) (e : EndId)
    (hlive : w.freed = false) (hs : (w.getEnd e).sending = 1) :
    on_socket_write_complete w sock (some reason) =
      .ok (h2o_tunnel_break w (some reason)) ∧
    (h2o_tunnel_break w (some reason)).tunnel.err = some reason ∧
    (h2o_tunnel_break w (some reason)).tunnel.down.shutdowned = 1 ∧
    (h2o_tunnel_break w (some reason)).tunnel.up.shutdowned = 1 ∧
    ((h2o_tunnel_break w (some reason)).getEnd e).sending = 1 ∧
    (h2o_tunnel_break w (some reason)).calls = w.calls ∧
    (h2o_tunnel_break w (some reason)).freed = false ∧
    ∀ ops : List Op, (∀ op ∈ ops, op.keeps_in_flight e = true) →
      (run (h2o_tunnel_break w (some reason)) ops).freed = false ∧
      ((run (h2o_tunnel_break w (some reason)) ops).getEnd e).sending = 1 ∧
      (run (h2o_tunnel_break w (some reason)) ops).calls.filter Event.isClose =
        w.calls.filter Event.isClose := by
  obtain ⟨b1, b2, b3, _, b5, b6⟩ := break_spec w (some reason)
  rw [is_sending_of_end w e hs] at b5 b6
  simp only [if_true, List.append_nil] at b5 b6
  have hse : ((h2o_tunnel_break w (some reason)).getEnd e).sending = 1 := by
    cases e
    · show (h2o_tunnel_break w (some reason)).tunnel.down.sending = 1
      rw [b2]; exact hs
    · show (h2o_tunnel_break w (some reason)).tunnel.up.sending = 1
      rw [b3]; exact hs
  refine ⟨rfl, b1, by rw [b2], by rw [b3], hse, b6, by rw [b5, hlive], fun ops hall => ?_⟩
  obtain ⟨r1, r2, r3⟩ := run_keeps_in_flight e ops (h2o_tunnel_break w (some reason))
    (by rw [b5, hlive]) hse hall
  exact ⟨r1, r2, by rw [r3, b6]⟩

/-- Witness for C19: in `up_sending` a write error "reset" on socket 2 is a
deferred break, and neither a second break nor the timer firing after it frees
the tunnel or closes an end. -/
theorem C19_write_error_defers_forever_witness :
    up_sending.freed = false ∧ (up_sending.getEnd .up).sending = 1 ∧
    on_socket_write_complete up_sending 2 (some "reset") =
      .ok (h2o_tunnel_break up_sending (some "reset")) ∧
    (run (h2o_tunnel_break up_sending (some "reset")) [.break_ (some "again"), .timer]).freed
      = false ∧
    (run (h2o_tunnel_break up_sending (some "reset"))
      [.break_ (some "again"), .timer]).calls.filter Event.isClose =
        up_sending.calls.filter Event.isClose := by
  have h := C19_write_error_defers_forever up_sending 2 "reset" .up (by decide) (by decide)
  have h2 := h.2.2.2.2.2.2.2 [.break_ (some "again"), .timer] (by decide)
  exact ⟨by decide, by decide, h.1, h2.1, h2.2.2⟩

/-- C20 fails on the code: establish a tunnel between the socket ends of
sockets 1 (`down`) and 2 (`up`) when socket 2 already holds two bytes.
`socket_end_open` for `up` forwards them through `on_socket_read`, which stops
reading on socket 2 and leaves a send to `down` in flight, and then starts
reading on socket 2 again. When one more byte is read on socket 2, the read
callback forwards onto `down` while `down.sending` is 1: `down.send` has been
called twice and socket 1 written twice with no completion in between, and of
the two write completions that follow the second fails the assertion of
`h2o_tunnel_notify_sent`. -/
theorem C20_open_restarts_reading :
    ∃ w0 w1 w2,
      h2o_tunnel_establish (h2o_tunnel_socket_end_init 1) (h2o_tunnel_socket_end_init 2)
        buffered_socks = .ok w0 ∧
      w0.trace = [.timeout_link, .open_ .up, .socket_read_stop 2, .timeout_unlink,
        .timeout_link, .send .down [[104, 105]] 1 0, .socket_write 1 [[104, 105]] 1,
        .socket_read_start 2, .open_ .down, .socket_read_start 1] ∧
      w0.tunnel.down.sending = 1 ∧
      (w0.socks 2).reading = true ∧
      on_socket_read
        (w0.setSock 2 { w0.socks 2 with input := [104, 105, 106], bytes_read := 1 }) 2 none =
        .ok w1 ∧
      w1.calls.filter Event.isSend =
        [.send .down [[104, 105]] 1 0, .send .down [[104, 105, 106]] 1 0] ∧
      w1.trace.filter Event.isSocketWrite =
        [.socket_write 1 [[104, 105]] 1, .socket_write 1 [[104, 105, 106]] 1] ∧
      w1.calls.filter Event.isPeerSendComplete = [] ∧
      on_socket_write_complete w1 1 none = .ok w2 ∧
      on_socket_write_complete w2 1 none = .error .assertion_failed :=
  ⟨_, _, _, rfl, rfl, rfl, rfl, rfl, rfl, rfl, rfl, rfl, rfl⟩

end H2OTunnel
